import Mathlib

/-! The payment gateway `transform-engine-go` of demo-vault.

A shallow embedding of the payment gateway of `transform-engine-go`:

* `vault/vault.go`      : `Client.IsOK`, `Client.TokenizeCCNumber`
* `data/postgres.go`    : `PostgreSQL.IsConnected`, `PostgreSQL.SaveOrder`
* `handlers/payment.go` : `Payment.ServeHTTP`
* `handlers/health.go`  : `Health.ServeHTTP`

The Go code is sequential and talks to three things outside the repository:
the Vault HTTP API (through `http.DefaultClient.Do`), the database (through
`sqlx.DB`) and the standard library (`encoding/json`, `net/url`, `time`).
Their answers are inputs of the model (`World`, `data.DB`); every function
returns the list of the effects it performed, in order, together with its Go
return value, so that call counts, call order, log lines and the bytes handed
to the `http.ResponseWriter` can all be read off one trace.
-/

namespace DemoVault

/-- A non-nil Go `error`, represented by the text its `Error()` method returns
(this is also what the `%s` verb of `fmt` prints for it). -/
abbrev GoError := String

/-! ## net/http values -/

namespace http

/-- Go constant `http.MethodGet`. -/
def MethodGet : String := "GET"
/-- Go constant `http.MethodPost`. -/
def MethodPost : String := "POST"
/-- Go constant `http.StatusOK`. -/
def StatusOK : Int := 200
/-- Go constant `http.StatusBadRequest`. -/
def StatusBadRequest : Int := 400
/-- Go constant `http.StatusInternalServerError`. -/
def StatusInternalServerError : Int := 500

/-- An outbound `*http.Request`: method, URL, headers in the order they were
added, and the body reader's content (`none` for a `nil` body). -/
structure Request where
  Method : String
  URL : String
  Header : List (String × String)
  Body : Option String
  deriving DecidableEq, Repr

/-- Go `r.Header.Add(key, value)`. -/
def Request.HeaderAdd (r : Request) (key value : String) : Request :=
  { r with Header := r.Header ++ [(key, value)] }

/-- An `*http.Response` as far as the repository reads it. -/
structure Response where
  StatusCode : Int
  Body : String
  deriving DecidableEq, Repr

end http

/-! ## Go structs of the repository -/

namespace vault

/-- Go struct `vault.Client`. -/
structure Client where
  token : String
  uri : String
  deriving DecidableEq, Repr

/-- Go struct `vault.TokenRequest`. -/
structure TokenRequest where
  Value : String
  deriving DecidableEq, Repr

/-- Go struct `vault.TokenReponseData`. -/
structure TokenReponseData where
  EncodedValue : String
  deriving DecidableEq, Repr

/-- Go struct `vault.TokenResponse`. -/
structure TokenResponse where
  Data : TokenReponseData
  deriving DecidableEq, Repr

/-- Go `vault.NewClient`. -/
def NewClient (token serverURI : String) : Client := ⟨token, serverURI⟩

end vault

namespace data

/-- Go struct `data.Order`; a field left out of a composite literal has its
zero value (`0`, `""`, an invalid `sql.NullString`). -/
structure Order where
  ID : Int := 0
  CardNumber : String := ""
  CreatedAt : String := ""
  UpdatedAt : String := ""
  DeletedAt : Option String := none
  deriving DecidableEq, Repr

/-- The connected `*sqlx.DB` handle: what the database answers to a ping and
to `QueryRow(query, args...).Scan(&id)` (the scanned `id`, or the error). -/
structure DB where
  Ping : Except GoError Unit
  QueryRowScan : String → List String → Except GoError Int

/-- Go struct `data.PostgreSQL`. -/
structure PostgreSQL where
  db : DB

end data

namespace handlers

/-- Go struct `handlers.PaymentRequest`. -/
structure PaymentRequest where
  CardNumber : String
  Expiration : String
  CV2 : String
  deriving DecidableEq, Repr

/-- Go struct `handlers.PaymentResponse`. -/
structure PaymentResponse where
  TransactionID : Int
  deriving DecidableEq, Repr

/-- Go struct `handlers.PaymentError`. -/
structure PaymentError where
  Message : String
  deriving DecidableEq, Repr

/-- Go struct `handlers.HealthResponse`. -/
structure HealthResponse where
  Vault : String
  DB : String
  deriving DecidableEq, Repr

/-- Go struct `handlers.Payment` (the logger is represented by the log events
of the trace). -/
structure Payment where
  pc : data.PostgreSQL
  vc : vault.Client

/-- Go struct `handlers.Health`. -/
structure Health where
  pc : data.PostgreSQL
  vc : vault.Client

/-- The inbound `*http.Request` as far as the handlers read it: its body. -/
structure Request where
  Body : String
  deriving DecidableEq, Repr

end handlers

/-! ## The world outside the repository -/

/-- Answers of the standard library and of the network during one run. -/
structure World where
  /-- whether `url.Parse` accepts the URL, i.e. whether `http.NewRequest`
  returns a request rather than `nil` and an error -/
  urlParses : String → Bool
  /-- the outcome of `http.DefaultClient.Do` -/
  Do : http.Request → Except GoError http.Response
  /-- the bytes `json.Marshal` produces for a `TokenRequest` -/
  jsonMarshalTokenRequest : vault.TokenRequest → String
  /-- the outcome of `json.NewDecoder(body).Decode(&TokenResponse)` -/
  jsonDecodeTokenResponse : String → Except GoError vault.TokenResponse
  /-- the outcome of `json.NewDecoder(body).Decode(&PaymentRequest)` -/
  jsonDecodePaymentRequest : String → Except GoError handlers.PaymentRequest
  /-- the text of `pq.FormatTimestamp(time.Now())` at the k-th clock read of
  the run -/
  Now : Nat → String

/-- A value handed to `json.NewEncoder(rw).Encode`. -/
inductive Encoded where
  | PaymentError (v : handlers.PaymentError)
  | PaymentResponse (v : handlers.PaymentResponse)
  | HealthResponse (v : handlers.HealthResponse)
  deriving DecidableEq, Repr

/-- One observable step of a run, in program order. -/
inductive Event where
  /-- entry into `Client.TokenizeCCNumber(cc)` -/
  | TokenizeCCNumber (cc : String)
  /-- entry into `PostgreSQL.SaveOrder(o)` -/
  | SaveOrder (o : data.Order)
  /-- entry into `PostgreSQL.IsConnected()` -/
  | IsConnected
  /-- entry into `Client.IsOK()` -/
  | IsOK
  /-- `http.DefaultClient.Do(r)` -/
  | Do (r : http.Request)
  /-- the deferred `resp.Body.Close()` -/
  | BodyClose
  /-- `c.db.Ping()` -/
  | Ping
  /-- `c.db.QueryRow(query, args...)` -/
  | QueryRow (query : String) (args : List String)
  /-- `fmt.Println`, the line written to standard output -/
  | Println (line : String)
  /-- `p.log.Error(msg, key, value)` -/
  | LogError (msg : String) (args : List (String × String))
  /-- `rw.WriteHeader(status)` -/
  | WriteHeader (status : Int)
  /-- `json.NewEncoder(rw).Encode(v)` -/
  | Encode (v : Encoded)
  deriving DecidableEq, Repr

/-- How a Go call ends: it returns, or it panics (here always a nil pointer
dereference). -/
inductive Outcome (α : Type) where
  | ret (a : α)
  | panic
  deriving DecidableEq, Repr

/-- A finished call: the effects performed and the way it ended. -/
structure Run (α : Type) where
  trace : List Event
  result : Outcome α

namespace http

/-- Go `http.NewRequest(method, url, body)` for the two constant methods used
here: a fresh request without headers, or `nil` when the URL does not parse. -/
def NewRequest (w : World) (method url : String) (body : Option String) :
    Option Request :=
  if w.urlParses url then some ⟨method, url, [], body⟩ else none

end http

/-! ## vault/vault.go -/

namespace vault

/-- The request `Client.IsOK` hands to `http.DefaultClient.Do`, when
`http.NewRequest` returned one. -/
def Client.healthRequest (w : World) (c : Client) : Option http.Request :=
  (http.NewRequest w http.MethodGet (c.uri ++ "/v1/sys/health") none).map
    (fun r => r.HeaderAdd "X-Vault-Token" c.token)

/-- Go `func (c *Client) IsOK() bool`. The error of `http.NewRequest` is
dropped, so a `nil` request is dereferenced by `r.Header.Add`. -/
def Client.IsOK (w : World) (c : Client) : Run Bool :=
  let url := c.uri ++ "/v1/sys/health"
  match http.NewRequest w http.MethodGet url none with
  | none => ⟨[.IsOK], .panic⟩
  | some r =>
    let r := r.HeaderAdd "X-Vault-Token" c.token
    match w.Do r with
    | .error _ => ⟨[.IsOK, .Do r], .ret false⟩
    | .ok resp =>
      if resp.StatusCode ≠ http.StatusOK then
        ⟨[.IsOK, .Do r, .BodyClose], .ret false⟩
      else
        ⟨[.IsOK, .Do r, .BodyClose], .ret true⟩

/-- The request `Client.TokenizeCCNumber` hands to `http.DefaultClient.Do`,
when `http.NewRequest` returned one. -/
def Client.tokenizeRequest (w : World) (c : Client) (cc : String) :
    Option http.Request :=
  (http.NewRequest w http.MethodPost (c.uri ++ "/v1/transform/encode/payments")
      (some (w.jsonMarshalTokenRequest ⟨cc⟩))).map
    (fun r => r.HeaderAdd "X-Vault-Token" c.token)

/-- The error `TokenizeCCNumber` builds with `fmt.Errorf` for a status other
than 200. -/
def statusError (code : Int) : GoError :=
  "Vault returned reponse code " ++ toString code ++ ", expected status code 200"

/-- Go `func (c *Client) TokenizeCCNumber(cc string) (string, error)`; the
error is `none` for Go's `nil`. -/
def Client.TokenizeCCNumber (w : World) (c : Client) (cc : String) :
    Run (String × Option GoError) :=
  let req : TokenRequest := ⟨cc⟩
  let data := w.jsonMarshalTokenRequest req
  let url := c.uri ++ "/v1/transform/encode/payments"
  match http.NewRequest w http.MethodPost url (some data) with
  | none => ⟨[.TokenizeCCNumber cc], .panic⟩
  | some r =>
    let r := r.HeaderAdd "X-Vault-Token" c.token
    match w.Do r with
    | .error err => ⟨[.TokenizeCCNumber cc, .Do r], .ret ("", some err)⟩
    | .ok resp =>
      if resp.StatusCode ≠ http.StatusOK then
        ⟨[.TokenizeCCNumber cc, .Do r, .BodyClose],
          .ret ("", some (statusError resp.StatusCode))⟩
      else
        match w.jsonDecodeTokenResponse resp.Body with
        | .error err => ⟨[.TokenizeCCNumber cc, .Do r, .BodyClose], .ret ("", some err)⟩
        | .ok tr =>
          ⟨[.TokenizeCCNumber cc, .Do r, .BodyClose], .ret (tr.Data.EncodedValue, none)⟩

end vault

/-! ## data/postgres.go -/

namespace data

/-- The statement of `SaveOrder`. -/
def insertOrderSQL : String :=
  "INSERT INTO orders (card_number, created_at, updated_at) VALUES ($1, $2, $3) RETURNING id"

/-- Go `func (c *PostgreSQL) IsConnected() (bool, error)`. -/
def PostgreSQL.IsConnected (c : PostgreSQL) : Run (Bool × Option GoError) :=
  match c.db.Ping with
  | .error err => ⟨[.IsConnected, .Ping], .ret (false, some err)⟩
  | .ok _ => ⟨[.IsConnected, .Ping], .ret (true, none)⟩

/-- Go `func (c *PostgreSQL) SaveOrder(o Order) (int64, error)`. -/
def PostgreSQL.SaveOrder (w : World) (c : PostgreSQL) (o : Order) :
    Run (Int × Option GoError) :=
  let args := [o.CardNumber, w.Now 0, w.Now 1]
  match c.db.QueryRowScan insertOrderSQL args with
  | .error err =>
    ⟨[.SaveOrder o, .QueryRow insertOrderSQL args],
      .ret (-1, some ("Unable to insert record into DB. Error: " ++ err))⟩
  | .ok id =>
    ⟨[.SaveOrder o, .QueryRow insertOrderSQL args, .Println ("id " ++ toString id)],
      .ret (id, none)⟩

end data

/-! ## handlers/payment.go, handlers/health.go -/

namespace handlers

/-- Go `func (p *Payment) ServeHTTP(rw http.ResponseWriter, r *http.Request)`.
A panic of a callee ends the handler where it stands. -/
def Payment.ServeHTTP (w : World) (p : Payment) (r : Request) : Run Unit :=
  match w.jsonDecodePaymentRequest r.Body with
  | .error err =>
    ⟨[.LogError "Unable to parse request" [("error", err)],
      .WriteHeader http.StatusBadRequest,
      .Encode (.PaymentError ⟨"Unable to parse request: " ++ err⟩)], .ret ()⟩
  | .ok pr =>
    let tk := p.vc.TokenizeCCNumber w pr.CardNumber
    match tk.result with
    | .panic => ⟨tk.trace, .panic⟩
    | .ret (_, some err) =>
      ⟨tk.trace ++
        [.LogError "Unable to tokenize record" [("error", err)],
         .WriteHeader http.StatusInternalServerError,
         .Encode (.PaymentError ⟨"Uable to tokenize record: " ++ err⟩)], .ret ()⟩
    | .ret (encoded, none) =>
      let o : data.Order := { CardNumber := encoded }
      let sv := p.pc.SaveOrder w o
      match sv.result with
      | .panic => ⟨tk.trace ++ sv.trace, .panic⟩
      | .ret (_, some err) =>
        ⟨tk.trace ++ sv.trace ++
          [.LogError "Unable to save record" [("error", err)],
           .WriteHeader http.StatusInternalServerError,
           .Encode (.PaymentError ⟨"Uable to save data to db: " ++ err⟩)], .ret ()⟩
      | .ret (id, none) =>
        ⟨tk.trace ++ sv.trace ++ [.Encode (.PaymentResponse ⟨id⟩)], .ret ()⟩

/-- Go `func (h *Health) ServeHTTP(rw http.ResponseWriter, r *http.Request)`.
A panic of a callee ends the handler where it stands. -/
def Health.ServeHTTP (w : World) (h : Health) (_r : Request) : Run Unit :=
  let hr : HealthResponse := { Vault := "OK", DB := "OK" }
  let status := http.StatusOK
  let ic := h.pc.IsConnected
  match ic.result with
  | .panic => ⟨ic.trace, .panic⟩
  | .ret (ok, _) =>
    let hr := if !ok then { hr with DB := "Fail" } else hr
    let status := if !ok then http.StatusInternalServerError else status
    let ik := h.vc.IsOK w
    match ik.result with
    | .panic => ⟨ic.trace ++ ik.trace, .panic⟩
    | .ret isOK =>
      let hr := if !isOK then { hr with Vault := "Fail" } else hr
      let status := if !isOK then http.StatusInternalServerError else status
      ⟨ic.trace ++ ik.trace ++ [.WriteHeader status, .Encode (.HealthResponse hr)],
        .ret ()⟩

end handlers

/-! ## Reading a trace -/

/-- The state of the `http.ResponseWriter`: the status line sent (if any) and
the values encoded into the body so far. -/
structure ResponseWriter where
  status : Option Int := none
  body : List Encoded := []
  deriving DecidableEq, Repr

/-- The effect of one event on the response writer, as `net/http` defines it:
the first `WriteHeader` fixes the status, and a write with no status sent yet
sends `200` first. -/
def ResponseWriter.step (rw : ResponseWriter) : Event → ResponseWriter
  | .WriteHeader s =>
    match rw.status with
    | none => { rw with status := some s }
    | some _ => rw
  | .Encode v => { status := some (rw.status.getD http.StatusOK), body := rw.body ++ [v] }
  | _ => rw

/-- The response a trace leaves behind. -/
def response (t : List Event) : ResponseWriter :=
  t.foldl ResponseWriter.step {}

/-- Whether the event is a call of one of the two dependency operations of the
payment pipeline. -/
def Event.isPipelineCall : Event → Bool
  | .TokenizeCCNumber _ => true
  | .SaveOrder _ => true
  | _ => false

/-- The dependency calls of a trace, in order. -/
def calls (t : List Event) : List Event := t.filter Event.isPipelineCall

/-- Number of `TokenizeCCNumber` calls in a trace. -/
def tokenizeCalls (t : List Event) : Nat :=
  t.countP (fun e => match e with | .TokenizeCCNumber _ => true | _ => false)

/-- Number of `SaveOrder` calls in a trace. -/
def saveOrderCalls (t : List Event) : Nat :=
  t.countP (fun e => match e with | .SaveOrder _ => true | _ => false)

/-- Number of statements sent to the database in a trace. -/
def queries (t : List Event) : Nat :=
  t.countP (fun e => match e with | .QueryRow _ _ => true | _ => false)

/-- Number of HTTP requests sent in a trace. -/
def httpCalls (t : List Event) : Nat :=
  t.countP (fun e => match e with | .Do _ => true | _ => false)

/-- Whether the event writes a log entry or a line on standard output. -/
def Event.isLog : Event → Bool
  | .LogError _ _ => true
  | .Println _ => true
  | _ => false

/-- The log entries and printed lines of a trace, in order. -/
def logs (t : List Event) : List Event := t.filter Event.isLog

/-- The text `t` occurs in the text `s`. -/
def containsText (s t : String) : Prop := t.data <:+: s.data

instance (s t : String) : Decidable (containsText s t) := by
  unfold containsText; infer_instance

/-! ## Concrete worlds

The deployment of `main.go` (`vault.NewClient("root", *vaultHost)` with the
default address) in front of a Vault and a database whose behaviour is chosen
per scenario. -/

namespace Scenario

/-- The client `main.go` creates with the default `VAULT_ADDR`. -/
def client : vault.Client := vault.NewClient "root" "http://localhost:8200"

/-- Body of the payment request of the specification's scenario. -/
def visaBody : String :=
  "\x7b\"card_number\": \"4024-2322-1235-9245\", \"expiration\": \"09/28\", \"cv2\": \"123\"\x7d"

/-- The same request with the MasterCard example number of `payment.go`. -/
def masterCardBody : String :=
  "\x7b\"card_number\": \"5355-6853-9451-3461\", \"expiration\": \"09/28\", \"cv2\": \"123\"\x7d"

/-- A Vault answer carrying the token `tok_abcd1234`. -/
def tokenBody : String :=
  "\x7b\"data\": \x7b\"encoded_value\": \"tok_abcd1234\"\x7d\x7d"

/-- A Vault answer whose encoded value is the card number it was sent. -/
def echoBody : String :=
  "\x7b\"data\": \x7b\"encoded_value\": \"4024-2322-1235-9245\"\x7d\x7d"

/-- A body cut off in the middle of a JSON object: `encoding/json` rejects it,
and it carries neither a status nor an encoded value. -/
def truncatedBody : String := "\x7b\"data\": "

/-- The empty JSON object: valid JSON without any field, so without `data` and
without `encoded_value`. -/
def emptyObjectBody : String := "\x7b\x7d"

/-- What `encoding/json` answers on the request bodies above. Decoding into a
struct leaves a field that the object does not mention at its zero value and
returns no error, so the empty object decodes to the zero `PaymentRequest`. -/
def decodePaymentRequest (body : String) : Except GoError handlers.PaymentRequest :=
  if body = visaBody then .ok ⟨"4024-2322-1235-9245", "09/28", "123"⟩
  else if body = masterCardBody then .ok ⟨"5355-6853-9451-3461", "09/28", "123"⟩
  else if body = emptyObjectBody then .ok ⟨"", "", ""⟩
  else .error "unexpected EOF"

/-- What `encoding/json` answers on the Vault answers above. The empty object
decodes to the zero `TokenResponse` without error, for the same reason. -/
def decodeTokenResponse (body : String) : Except GoError vault.TokenResponse :=
  if body = tokenBody then .ok ⟨⟨"tok_abcd1234"⟩⟩
  else if body = echoBody then .ok ⟨⟨"4024-2322-1235-9245"⟩⟩
  else if body = emptyObjectBody then .ok ⟨⟨""⟩⟩
  else .error "unexpected EOF"

/-- A run's world, given the behaviour of the network. -/
def world (Do : http.Request → Except GoError http.Response) : World where
  urlParses := fun _ => true
  Do := Do
  jsonMarshalTokenRequest := fun t => "\x7b\"value\":\"" ++ t.Value ++ "\"\x7d"
  jsonDecodeTokenResponse := decodeTokenResponse
  jsonDecodePaymentRequest := decodePaymentRequest
  Now := fun _ => "2020-03-02 10:00:00Z"

/-- Vault is up, unsealed, and encodes every value as `tok_abcd1234`. -/
def vaultUp (_r : http.Request) : Except GoError http.Response := .ok ⟨200, tokenBody⟩

/-- Vault cannot be reached. -/
def vaultDown (_r : http.Request) : Except GoError http.Response :=
  .error "dial tcp 127.0.0.1:8200: connect: connection refused"

/-- Vault is sealed: every request is answered with status 503. -/
def vaultSealed (_r : http.Request) : Except GoError http.Response := .ok ⟨503, ""⟩

/-- Every request is answered with status 200 and a cut-off body. -/
def vaultTruncated (_r : http.Request) : Except GoError http.Response :=
  .ok ⟨200, truncatedBody⟩

/-- Every request is answered with status 200 and the empty JSON object. -/
def vaultEmptyObject (_r : http.Request) : Except GoError http.Response :=
  .ok ⟨200, emptyObjectBody⟩

/-- The transformation returns the value it was given. -/
def vaultEcho (_r : http.Request) : Except GoError http.Response := .ok ⟨200, echoBody⟩

/-- A database that answers pings and assigns the identifier 42. -/
def dbUp : data.PostgreSQL := ⟨⟨.ok (), fun _ _ => .ok 42⟩⟩

/-- A database that cannot be reached. -/
def dbDown : data.PostgreSQL :=
  ⟨⟨.error "dial tcp 127.0.0.1:5432: connect: connection refused",
    fun _ _ => .error "dial tcp 127.0.0.1:5432: connect: connection refused"⟩⟩

end Scenario

end DemoVault

namespace DemoVault

/-! ## Traces in a row -/

/-- The response after two traces in a row. -/
lemma response_append (a b : List Event) :
    response (a ++ b) = b.foldl ResponseWriter.step (response a) := by
  unfold response
  rw [List.foldl_append]

/-- The dependency calls of two traces in a row. -/
lemma calls_append (a b : List Event) : calls (a ++ b) = calls a ++ calls b := by
  unfold calls
  rw [List.filter_append]

/-- The log entries of two traces in a row. -/
lemma logs_append (a b : List Event) : logs (a ++ b) = logs a ++ logs b := by
  unfold logs
  rw [List.filter_append]

/-- Store calls of two traces in a row. -/
lemma saveOrderCalls_append (a b : List Event) :
    saveOrderCalls (a ++ b) = saveOrderCalls a + saveOrderCalls b := by
  unfold saveOrderCalls
  rw [List.countP_append]

/-- Database statements of two traces in a row. -/
lemma queries_append (a b : List Event) : queries (a ++ b) = queries a + queries b := by
  unfold queries
  rw [List.countP_append]

/-- HTTP requests of two traces in a row. -/
lemma httpCalls_append (a b : List Event) :
    httpCalls (a ++ b) = httpCalls a + httpCalls b := by
  unfold httpCalls
  rw [List.countP_append]

/-! ## Shape of the runs of the two clients -/

section ClientLemmas

variable (w : World)

/-- `TokenizeCCNumber` is entered once and calls no other pipeline operation. -/
lemma calls_TokenizeCCNumber (c : vault.Client) (cc : String) :
    calls (c.TokenizeCCNumber w cc).trace = [.TokenizeCCNumber cc] := by
  unfold vault.Client.TokenizeCCNumber
  dsimp only
  repeat (first | rfl | split)

/-- `TokenizeCCNumber` never enters `SaveOrder`. -/
lemma saveOrderCalls_TokenizeCCNumber (c : vault.Client) (cc : String) :
    saveOrderCalls (c.TokenizeCCNumber w cc).trace = 0 := by
  unfold vault.Client.TokenizeCCNumber
  dsimp only
  repeat (first | rfl | split)

/-- `TokenizeCCNumber` sends nothing to the database. -/
lemma queries_TokenizeCCNumber (c : vault.Client) (cc : String) :
    queries (c.TokenizeCCNumber w cc).trace = 0 := by
  unfold vault.Client.TokenizeCCNumber
  dsimp only
  repeat (first | rfl | split)

/-- `TokenizeCCNumber` sends at most one HTTP request. -/
lemma httpCalls_TokenizeCCNumber (c : vault.Client) (cc : String) :
    httpCalls (c.TokenizeCCNumber w cc).trace ≤ 1 := by
  unfold vault.Client.TokenizeCCNumber
  dsimp only
  repeat (first | exact Nat.le_refl 1 | exact Nat.zero_le 1 | split)

/-- `TokenizeCCNumber` writes no log entry. -/
lemma logs_TokenizeCCNumber (c : vault.Client) (cc : String) :
    logs (c.TokenizeCCNumber w cc).trace = [] := by
  unfold vault.Client.TokenizeCCNumber
  dsimp only
  repeat (first | rfl | split)

/-- `TokenizeCCNumber` does not touch the response writer. -/
lemma foldl_step_TokenizeCCNumber (c : vault.Client) (cc : String) (rw : ResponseWriter) :
    (c.TokenizeCCNumber w cc).trace.foldl ResponseWriter.step rw = rw := by
  unfold vault.Client.TokenizeCCNumber
  dsimp only
  repeat (first | rfl | split)

/-- `SaveOrder` is entered once and calls no other pipeline operation. -/
lemma calls_SaveOrder (c : data.PostgreSQL) (o : data.Order) :
    calls (c.SaveOrder w o).trace = [.SaveOrder o] := by
  unfold data.PostgreSQL.SaveOrder
  dsimp only
  repeat (first | rfl | split)

/-- `SaveOrder` is entered once. -/
lemma saveOrderCalls_SaveOrder (c : data.PostgreSQL) (o : data.Order) :
    saveOrderCalls (c.SaveOrder w o).trace = 1 := by
  unfold data.PostgreSQL.SaveOrder
  dsimp only
  repeat (first | rfl | split)

/-- `SaveOrder` sends exactly one statement to the database. -/
lemma queries_SaveOrder (c : data.PostgreSQL) (o : data.Order) :
    queries (c.SaveOrder w o).trace = 1 := by
  unfold data.PostgreSQL.SaveOrder
  dsimp only
  repeat (first | rfl | split)

/-- `SaveOrder` sends no HTTP request. -/
lemma httpCalls_SaveOrder (c : data.PostgreSQL) (o : data.Order) :
    httpCalls (c.SaveOrder w o).trace = 0 := by
  unfold data.PostgreSQL.SaveOrder
  dsimp only
  repeat (first | rfl | split)

/-- `SaveOrder` does not touch the response writer. -/
lemma foldl_step_SaveOrder (c : data.PostgreSQL) (o : data.Order) (rw : ResponseWriter) :
    (c.SaveOrder w o).trace.foldl ResponseWriter.step rw = rw := by
  unfold data.PostgreSQL.SaveOrder
  dsimp only
  repeat (first | rfl | split)

/-- `SaveOrder` never panics. -/
lemma SaveOrder_result_ne_panic (c : data.PostgreSQL) (o : data.Order) :
    (c.SaveOrder w o).result ≠ .panic := by
  unfold data.PostgreSQL.SaveOrder
  dsimp only
  split <;> simp

/-- A failing `SaveOrder` returns the identifier `-1` and wraps the error of
the database; it prints nothing. -/
lemma SaveOrder_error (c : data.PostgreSQL) (o : data.Order) (id : Int) (e : GoError)
    (h : (c.SaveOrder w o).result = .ret (id, some e)) :
    id = -1 ∧
    ∃ dbErr, c.db.QueryRowScan data.insertOrderSQL [o.CardNumber, w.Now 0, w.Now 1]
        = .error dbErr ∧
      e = "Unable to insert record into DB. Error: " ++ dbErr ∧
      (c.SaveOrder w o).trace =
        [.SaveOrder o, .QueryRow data.insertOrderSQL [o.CardNumber, w.Now 0, w.Now 1]] := by
  unfold data.PostgreSQL.SaveOrder at h ⊢
  dsimp only at h ⊢
  split at h
  · next err hq =>
    simp only [Outcome.ret.injEq, Prod.mk.injEq, Option.some.injEq] at h
    rw [hq]
    exact ⟨h.1.symm, err, rfl, h.2.symm, rfl⟩
  · simp at h

/-- A successful `TokenizeCCNumber` returns the encoded value that the body of
a status-200 answer of Vault decodes to. -/
lemma TokenizeCCNumber_ok (c : vault.Client) (cc tok : String)
    (h : (c.TokenizeCCNumber w cc).result = .ret (tok, none)) :
    ∃ req resp tr, c.tokenizeRequest w cc = some req ∧ w.Do req = .ok resp ∧
      resp.StatusCode = 200 ∧ w.jsonDecodeTokenResponse resp.Body = .ok tr ∧
      tok = tr.Data.EncodedValue := by
  unfold vault.Client.TokenizeCCNumber at h
  unfold vault.Client.tokenizeRequest
  dsimp only at h ⊢
  split at h
  · simp at h
  · next r0 hr0 =>
    rw [hr0]
    split at h
    · simp at h
    · next resp hdo =>
      split at h
      · simp at h
      · next hst =>
        split at h
        · simp at h
        · next tr hdec =>
          simp only [Outcome.ret.injEq, Prod.mk.injEq, and_true] at h
          exact ⟨_, resp, tr, rfl, hdo, not_not.mp hst, hdec, h.symm⟩

/-- `TokenizeCCNumber` after `http.NewRequest` returned a request: the rest of
the function, as a function of that request. -/
lemma TokenizeCCNumber_of_request (c : vault.Client) (cc : String) (req : http.Request)
    (hreq : c.tokenizeRequest w cc = some req) :
    c.TokenizeCCNumber w cc =
      match w.Do req with
      | .error err => ⟨[.TokenizeCCNumber cc, .Do req], .ret ("", some err)⟩
      | .ok resp =>
        if resp.StatusCode ≠ 200 then
          ⟨[.TokenizeCCNumber cc, .Do req, .BodyClose],
            .ret ("", some (vault.statusError resp.StatusCode))⟩
        else
          match w.jsonDecodeTokenResponse resp.Body with
          | .error err => ⟨[.TokenizeCCNumber cc, .Do req, .BodyClose], .ret ("", some err)⟩
          | .ok tr =>
            ⟨[.TokenizeCCNumber cc, .Do req, .BodyClose],
              .ret (tr.Data.EncodedValue, none)⟩ := by
  unfold vault.Client.tokenizeRequest at hreq
  unfold vault.Client.TokenizeCCNumber
  dsimp only at hreq ⊢
  cases hnr : http.NewRequest w http.MethodPost (c.uri ++ "/v1/transform/encode/payments")
      (some (w.jsonMarshalTokenRequest ⟨cc⟩)) with
  | none => rw [hnr] at hreq; simp at hreq
  | some r0 =>
    rw [hnr] at hreq
    simp only [Option.map_some', Option.some.injEq] at hreq
    subst hreq
    rfl

/-- The run of `TokenizeCCNumber` on a transport error. -/
lemma TokenizeCCNumber_transport_error (c : vault.Client) (cc : String)
    (req : http.Request) (e : GoError)
    (hreq : c.tokenizeRequest w cc = some req) (hdo : w.Do req = .error e) :
    c.TokenizeCCNumber w cc = ⟨[.TokenizeCCNumber cc, .Do req], .ret ("", some e)⟩ := by
  rw [TokenizeCCNumber_of_request w c cc req hreq, hdo]

/-- The run of `TokenizeCCNumber` on a status other than 200. -/
lemma TokenizeCCNumber_status_error (c : vault.Client) (cc : String)
    (req : http.Request) (resp : http.Response)
    (hreq : c.tokenizeRequest w cc = some req) (hdo : w.Do req = .ok resp)
    (hst : resp.StatusCode ≠ 200) :
    c.TokenizeCCNumber w cc =
      ⟨[.TokenizeCCNumber cc, .Do req, .BodyClose],
        .ret ("", some (vault.statusError resp.StatusCode))⟩ := by
  rw [TokenizeCCNumber_of_request w c cc req hreq, hdo]
  dsimp only
  rw [if_pos hst]

/-- The run of `TokenizeCCNumber` on a status-200 body that does not decode. -/
lemma TokenizeCCNumber_decode_error (c : vault.Client) (cc : String)
    (req : http.Request) (resp : http.Response) (e : GoError)
    (hreq : c.tokenizeRequest w cc = some req) (hdo : w.Do req = .ok resp)
    (hst : resp.StatusCode = 200) (hdec : w.jsonDecodeTokenResponse resp.Body = .error e) :
    c.TokenizeCCNumber w cc =
      ⟨[.TokenizeCCNumber cc, .Do req, .BodyClose], .ret ("", some e)⟩ := by
  rw [TokenizeCCNumber_of_request w c cc req hreq, hdo]
  dsimp only
  rw [if_neg (not_not.mpr hst), hdec]

/-- The run of `TokenizeCCNumber` on a status-200 body that decodes. -/
lemma TokenizeCCNumber_decoded (c : vault.Client) (cc : String)
    (req : http.Request) (resp : http.Response) (tr : vault.TokenResponse)
    (hreq : c.tokenizeRequest w cc = some req) (hdo : w.Do req = .ok resp)
    (hst : resp.StatusCode = 200) (hdec : w.jsonDecodeTokenResponse resp.Body = .ok tr) :
    c.TokenizeCCNumber w cc =
      ⟨[.TokenizeCCNumber cc, .Do req, .BodyClose], .ret (tr.Data.EncodedValue, none)⟩ := by
  rw [TokenizeCCNumber_of_request w c cc req hreq, hdo]
  dsimp only
  rw [if_neg (not_not.mpr hst), hdec]

/-- `IsConnected` does not touch the response writer. -/
lemma foldl_step_IsConnected (c : data.PostgreSQL) (rw : ResponseWriter) :
    c.IsConnected.trace.foldl ResponseWriter.step rw = rw := by
  unfold data.PostgreSQL.IsConnected
  split <;> rfl

/-- `IsOK` does not touch the response writer. -/
lemma foldl_step_IsOK (c : vault.Client) (rw : ResponseWriter) :
    (c.IsOK w).trace.foldl ResponseWriter.step rw = rw := by
  unfold vault.Client.IsOK
  dsimp only
  repeat (first | rfl | split)

end ClientLemmas

/-! ## The four paths of `Payment.ServeHTTP` -/

section PaymentPaths

variable (w : World) (p : handlers.Payment) (r : handlers.Request)

/-- The run on a body that does not decode. -/
lemma ServeHTTP_parse_error (err : GoError)
    (hparse : w.jsonDecodePaymentRequest r.Body = .error err) :
    handlers.Payment.ServeHTTP w p r =
      ⟨[.LogError "Unable to parse request" [("error", err)],
        .WriteHeader 400,
        .Encode (.PaymentError ⟨"Unable to parse request: " ++ err⟩)], .ret ()⟩ := by
  unfold handlers.Payment.ServeHTTP
  simp only [hparse]
  rfl

/-- The run when the tokenizer returns an error. -/
lemma ServeHTTP_tokenize_error (pr : handlers.PaymentRequest) (tok : String) (err : GoError)
    (hparse : w.jsonDecodePaymentRequest r.Body = .ok pr)
    (htok : (p.vc.TokenizeCCNumber w pr.CardNumber).result = .ret (tok, some err)) :
    handlers.Payment.ServeHTTP w p r =
      ⟨(p.vc.TokenizeCCNumber w pr.CardNumber).trace ++
        [.LogError "Unable to tokenize record" [("error", err)],
         .WriteHeader 500,
         .Encode (.PaymentError ⟨"Uable to tokenize record: " ++ err⟩)], .ret ()⟩ := by
  unfold handlers.Payment.ServeHTTP
  simp only [hparse, htok]
  rfl

/-- The run when the tokenizer succeeds and the store returns an error. -/
lemma ServeHTTP_save_error (pr : handlers.PaymentRequest) (tok : String) (id : Int)
    (err : GoError)
    (hparse : w.jsonDecodePaymentRequest r.Body = .ok pr)
    (htok : (p.vc.TokenizeCCNumber w pr.CardNumber).result = .ret (tok, none))
    (hsave : (p.pc.SaveOrder w { CardNumber := tok }).result = .ret (id, some err)) :
    handlers.Payment.ServeHTTP w p r =
      ⟨(p.vc.TokenizeCCNumber w pr.CardNumber).trace ++
        (p.pc.SaveOrder w { CardNumber := tok }).trace ++
        [.LogError "Unable to save record" [("error", err)],
         .WriteHeader 500,
         .Encode (.PaymentError ⟨"Uable to save data to db: " ++ err⟩)], .ret ()⟩ := by
  unfold handlers.Payment.ServeHTTP
  simp only [hparse, htok, hsave]
  rfl

/-- The run when the tokenizer and the store both succeed. -/
lemma ServeHTTP_success (pr : handlers.PaymentRequest) (tok : String) (id : Int)
    (hparse : w.jsonDecodePaymentRequest r.Body = .ok pr)
    (htok : (p.vc.TokenizeCCNumber w pr.CardNumber).result = .ret (tok, none))
    (hsave : (p.pc.SaveOrder w { CardNumber := tok }).result = .ret (id, none)) :
    handlers.Payment.ServeHTTP w p r =
      ⟨(p.vc.TokenizeCCNumber w pr.CardNumber).trace ++
        (p.pc.SaveOrder w { CardNumber := tok }).trace ++
        [.Encode (.PaymentResponse ⟨id⟩)], .ret ()⟩ := by
  unfold handlers.Payment.ServeHTTP
  simp only [hparse, htok, hsave]

/-- The run when `TokenizeCCNumber` panics. -/
lemma ServeHTTP_tokenize_panic (pr : handlers.PaymentRequest)
    (hparse : w.jsonDecodePaymentRequest r.Body = .ok pr)
    (htok : (p.vc.TokenizeCCNumber w pr.CardNumber).result = .panic) :
    handlers.Payment.ServeHTTP w p r =
      ⟨(p.vc.TokenizeCCNumber w pr.CardNumber).trace, .panic⟩ := by
  unfold handlers.Payment.ServeHTTP
  simp only [hparse, htok]

end PaymentPaths

/-- The run of `Health.ServeHTTP` when both probes return. -/
lemma Health_ServeHTTP_eq (w : World) (h : handlers.Health) (r : handlers.Request)
    (s t : Bool) (e : Option GoError)
    (hs : h.pc.IsConnected.result = .ret (s, e))
    (ht : (h.vc.IsOK w).result = .ret t) :
    handlers.Health.ServeHTTP w h r =
      ⟨h.pc.IsConnected.trace ++ (h.vc.IsOK w).trace ++
        [.WriteHeader (if s && t then 200 else 500),
         .Encode (.HealthResponse
           ⟨if t then "OK" else "Fail", if s then "OK" else "Fail"⟩)], .ret ()⟩ := by
  unfold handlers.Health.ServeHTTP
  simp only [hs, ht]
  cases s <;> cases t <;> rfl

/-- The response of `Health.ServeHTTP` when both probes return. -/
lemma Health_response (w : World) (h : handlers.Health) (r : handlers.Request)
    (s t : Bool) (e : Option GoError)
    (hs : h.pc.IsConnected.result = .ret (s, e))
    (ht : (h.vc.IsOK w).result = .ret t) :
    response (handlers.Health.ServeHTTP w h r).trace =
      ⟨some (if s && t then 200 else 500),
       [.HealthResponse ⟨if t then "OK" else "Fail", if s then "OK" else "Fail"⟩]⟩ := by
  rw [Health_ServeHTTP_eq w h r s t e hs ht]
  dsimp only
  rw [response_append, response_append]
  unfold response
  rw [foldl_step_IsConnected, foldl_step_IsOK]
  rfl

/-- A text occurs in itself with a text put in front. -/
lemma containsText_append_right (a e : String) : containsText (a ++ e) e :=
  ⟨a.data, [], by simp⟩

/-! ## Counting calls through the projection `calls` -/

/-- Tokenizer calls can be counted on the projection. -/
lemma tokenizeCalls_calls (t : List Event) : tokenizeCalls (calls t) = tokenizeCalls t := by
  induction t with
  | nil => rfl
  | cons e t ih =>
    unfold tokenizeCalls calls at ih ⊢
    cases e <;> simp [List.filter_cons, List.countP_cons, Event.isPipelineCall, ih]

/-- Store calls can be counted on the projection. -/
lemma saveOrderCalls_calls (t : List Event) : saveOrderCalls (calls t) = saveOrderCalls t := by
  induction t with
  | nil => rfl
  | cons e t ih =>
    unfold saveOrderCalls calls at ih ⊢
    cases e <;> simp [List.filter_cons, List.countP_cons, Event.isPipelineCall, ih]

/-- The dependency calls of a run of `Payment.ServeHTTP`: none when the body does
not decode, the tokenizer alone when it does not return a token, the tokenizer
and then the store when it does. -/
lemma calls_ServeHTTP (w : World) (p : handlers.Payment) (r : handlers.Request) :
    ((∃ e, w.jsonDecodePaymentRequest r.Body = .error e) ∧
      calls (handlers.Payment.ServeHTTP w p r).trace = []) ∨
    (∃ pr, w.jsonDecodePaymentRequest r.Body = .ok pr ∧
      (∀ tok, (p.vc.TokenizeCCNumber w pr.CardNumber).result ≠ .ret (tok, none)) ∧
      calls (handlers.Payment.ServeHTTP w p r).trace = [.TokenizeCCNumber pr.CardNumber]) ∨
    (∃ pr tok, w.jsonDecodePaymentRequest r.Body = .ok pr ∧
      (p.vc.TokenizeCCNumber w pr.CardNumber).result = .ret (tok, none) ∧
      calls (handlers.Payment.ServeHTTP w p r).trace =
        [.TokenizeCCNumber pr.CardNumber, .SaveOrder { CardNumber := tok }]) := by
  cases hparse : w.jsonDecodePaymentRequest r.Body with
  | error e =>
    left
    rw [ServeHTTP_parse_error w p r e hparse]
    exact ⟨⟨e, rfl⟩, rfl⟩
  | ok pr =>
    right
    cases htok : (p.vc.TokenizeCCNumber w pr.CardNumber).result with
    | panic =>
      left
      rw [ServeHTTP_tokenize_panic w p r pr hparse htok]
      exact ⟨pr, rfl, fun tok h => by rw [htok] at h; simp at h,
        calls_TokenizeCCNumber w p.vc pr.CardNumber⟩
    | ret v =>
      obtain ⟨tok, err⟩ := v
      cases err with
      | some e =>
        left
        rw [ServeHTTP_tokenize_error w p r pr tok e hparse htok]
        refine ⟨pr, rfl, fun tok h => by rw [htok] at h; simp at h, ?_⟩
        dsimp only
        rw [calls_append, calls_TokenizeCCNumber]
        rfl
      | none =>
        right
        refine ⟨pr, tok, rfl, htok, ?_⟩
        cases hsave : (p.pc.SaveOrder w { CardNumber := tok }).result with
        | panic => exact absurd hsave (SaveOrder_result_ne_panic w p.pc _)
        | ret v =>
          obtain ⟨id, err⟩ := v
          cases err with
          | some e =>
            rw [ServeHTTP_save_error w p r pr tok id e hparse htok hsave]
            dsimp only
            rw [calls_append, calls_append, calls_TokenizeCCNumber, calls_SaveOrder]
            rfl
          | none =>
            rw [ServeHTTP_success w p r pr tok id hparse htok hsave]
            dsimp only
            rw [calls_append, calls_append, calls_TokenizeCCNumber, calls_SaveOrder]
            rfl

/-! ## Two runs side by side -/

/-- The result of `TokenizeCCNumber` is a function of what the network and the
decoder answer: two calls of one client that get the same answers return the
same token and the same error, whatever values they were asked to encode. -/
lemma TokenizeCCNumber_result_congr (w1 w2 : World) (c : vault.Client) (cc1 cc2 : String)
    (hurl : w1.urlParses = w2.urlParses)
    (hjson : w1.jsonDecodeTokenResponse = w2.jsonDecodeTokenResponse)
    (hDo : ∀ req1 req2, c.tokenizeRequest w1 cc1 = some req1 →
      c.tokenizeRequest w2 cc2 = some req2 → w1.Do req1 = w2.Do req2) :
    (c.TokenizeCCNumber w1 cc1).result = (c.TokenizeCCNumber w2 cc2).result := by
  cases hp : w2.urlParses (c.uri ++ "/v1/transform/encode/payments") with
  | false =>
    have h1 : c.TokenizeCCNumber w1 cc1 = ⟨[.TokenizeCCNumber cc1], .panic⟩ := by
      unfold vault.Client.TokenizeCCNumber http.NewRequest
      simp [hurl, hp]
    have h2 : c.TokenizeCCNumber w2 cc2 = ⟨[.TokenizeCCNumber cc2], .panic⟩ := by
      unfold vault.Client.TokenizeCCNumber http.NewRequest
      simp [hp]
    rw [h1, h2]
  | true =>
    have hr1 : c.tokenizeRequest w1 cc1 = some
        (http.Request.HeaderAdd ⟨http.MethodPost, c.uri ++ "/v1/transform/encode/payments", [],
          some (w1.jsonMarshalTokenRequest ⟨cc1⟩)⟩ "X-Vault-Token" c.token) := by
      unfold vault.Client.tokenizeRequest http.NewRequest
      simp [hurl, hp]
    have hr2 : c.tokenizeRequest w2 cc2 = some
        (http.Request.HeaderAdd ⟨http.MethodPost, c.uri ++ "/v1/transform/encode/payments", [],
          some (w2.jsonMarshalTokenRequest ⟨cc2⟩)⟩ "X-Vault-Token" c.token) := by
      unfold vault.Client.tokenizeRequest http.NewRequest
      simp [hp]
    rw [TokenizeCCNumber_of_request w1 c cc1 _ hr1, TokenizeCCNumber_of_request w2 c cc2 _ hr2,
      hDo _ _ hr1 hr2, hjson]
    repeat (first | rfl | split)

/-- The result and the printed lines of `SaveOrder` are a function of what the
database answers. -/
lemma SaveOrder_congr (w1 w2 : World) (c1 c2 : data.PostgreSQL) (o : data.Order)
    (hdb : c1.db.QueryRowScan data.insertOrderSQL [o.CardNumber, w1.Now 0, w1.Now 1] =
      c2.db.QueryRowScan data.insertOrderSQL [o.CardNumber, w2.Now 0, w2.Now 1]) :
    (c1.SaveOrder w1 o).result = (c2.SaveOrder w2 o).result ∧
    logs (c1.SaveOrder w1 o).trace = logs (c2.SaveOrder w2 o).trace := by
  unfold data.PostgreSQL.SaveOrder
  dsimp only
  rw [hdb]
  split <;> exact ⟨rfl, rfl⟩

/-! ## Payment pipeline: failure before the store is reached -/

/-- C1: when the request body decodes and `TokenizeCCNumber` returns an error,
`Payment.ServeHTTP` never enters `SaveOrder` (no `Order` is built, nothing is
sent to the database), answers with status 500 (a 5xx status), and the message
of the response contains the text of the tokenizer's error. -/
theorem payment_tokenize_error_skips_store (w : World) (p : handlers.Payment)
    (r : handlers.Request) (pr : handlers.PaymentRequest) (tok : String) (e : GoError)
    (hparse : w.jsonDecodePaymentRequest r.Body = .ok pr)
    (htok : (p.vc.TokenizeCCNumber w pr.CardNumber).result = .ret (tok, some e)) :
    saveOrderCalls (handlers.Payment.ServeHTTP w p r).trace = 0 ∧
    queries (handlers.Payment.ServeHTTP w p r).trace = 0 ∧
    calls (handlers.Payment.ServeHTTP w p r).trace = [.TokenizeCCNumber pr.CardNumber] ∧
    (∃ st, (response (handlers.Payment.ServeHTTP w p r).trace).status = some st ∧
      st = 500 ∧ 500 ≤ st ∧ st < 600) ∧
    (∃ msg, (response (handlers.Payment.ServeHTTP w p r).trace).body = [.PaymentError ⟨msg⟩] ∧
      msg = "Uable to tokenize record: " ++ e ∧ containsText msg e) ∧
    (handlers.Payment.ServeHTTP w p r).result = .ret () := by
  rw [ServeHTTP_tokenize_error w p r pr tok e hparse htok]
  refine ⟨?_, ?_, ?_, ⟨500, ?_, rfl, by decide, by decide⟩,
    ⟨_, ?_, rfl, containsText_append_right _ _⟩, rfl⟩
  · rw [saveOrderCalls_append, saveOrderCalls_TokenizeCCNumber]; rfl
  · rw [queries_append, queries_TokenizeCCNumber]; rfl
  · rw [calls_append, calls_TokenizeCCNumber]; rfl
  · rw [response_append]
    unfold response
    rw [foldl_step_TokenizeCCNumber]; rfl
  · rw [response_append]
    unfold response
    rw [foldl_step_TokenizeCCNumber]; rfl

/-- Witness of C1: Vault cannot be reached while the scenario's request is
handled. -/
theorem payment_tokenize_error_skips_store_witness :
    (Scenario.world Scenario.vaultDown).jsonDecodePaymentRequest Scenario.visaBody
      = .ok ⟨"4024-2322-1235-9245", "09/28", "123"⟩ ∧
    (Scenario.client.TokenizeCCNumber (Scenario.world Scenario.vaultDown)
        "4024-2322-1235-9245").result
      = .ret ("", some "dial tcp 127.0.0.1:8200: connect: connection refused") ∧
    saveOrderCalls (handlers.Payment.ServeHTTP (Scenario.world Scenario.vaultDown)
        ⟨Scenario.dbUp, Scenario.client⟩ ⟨Scenario.visaBody⟩).trace = 0 ∧
    (response (handlers.Payment.ServeHTTP (Scenario.world Scenario.vaultDown)
        ⟨Scenario.dbUp, Scenario.client⟩ ⟨Scenario.visaBody⟩).trace).status = some 500 :=
  have h := payment_tokenize_error_skips_store (Scenario.world Scenario.vaultDown)
    ⟨Scenario.dbUp, Scenario.client⟩ ⟨Scenario.visaBody⟩
    ⟨"4024-2322-1235-9245", "09/28", "123"⟩ ""
    "dial tcp 127.0.0.1:8200: connect: connection refused" rfl rfl
  ⟨rfl, rfl, h.1, by
    obtain ⟨st, hst, h500, _⟩ := h.2.2.2.1
    rw [hst, h500]⟩

/-- C4: when the request body does not decode into a `PaymentRequest`,
`Payment.ServeHTTP` enters neither `TokenizeCCNumber` nor `SaveOrder` (no HTTP
request, no database statement), and answers with status 400 and a
`PaymentError` body carrying a message. -/
theorem payment_parse_error_calls_nothing (w : World) (p : handlers.Payment)
    (r : handlers.Request) (e : GoError)
    (hparse : w.jsonDecodePaymentRequest r.Body = .error e) :
    tokenizeCalls (handlers.Payment.ServeHTTP w p r).trace = 0 ∧
    saveOrderCalls (handlers.Payment.ServeHTTP w p r).trace = 0 ∧
    httpCalls (handlers.Payment.ServeHTTP w p r).trace = 0 ∧
    queries (handlers.Payment.ServeHTTP w p r).trace = 0 ∧
    calls (handlers.Payment.ServeHTTP w p r).trace = [] ∧
    response (handlers.Payment.ServeHTTP w p r).trace =
      ⟨some 400, [.PaymentError ⟨"Unable to parse request: " ++ e⟩]⟩ ∧
    (handlers.Payment.ServeHTTP w p r).result = .ret () := by
  rw [ServeHTTP_parse_error w p r e hparse]
  exact ⟨rfl, rfl, rfl, rfl, rfl, rfl, rfl⟩

/-- Witness of C4: a request body that stops in the middle of the object. -/
theorem payment_parse_error_calls_nothing_witness :
    (Scenario.world Scenario.vaultUp).jsonDecodePaymentRequest Scenario.truncatedBody
      = .error "unexpected EOF" ∧
    calls (handlers.Payment.ServeHTTP (Scenario.world Scenario.vaultUp)
      ⟨Scenario.dbUp, Scenario.client⟩ ⟨Scenario.truncatedBody⟩).trace = [] ∧
    response (handlers.Payment.ServeHTTP (Scenario.world Scenario.vaultUp)
      ⟨Scenario.dbUp, Scenario.client⟩ ⟨Scenario.truncatedBody⟩).trace =
      ⟨some 400, [.PaymentError ⟨"Unable to parse request: unexpected EOF"⟩]⟩ :=
  have h := payment_parse_error_calls_nothing (Scenario.world Scenario.vaultUp)
    ⟨Scenario.dbUp, Scenario.client⟩ ⟨Scenario.truncatedBody⟩ "unexpected EOF" rfl
  ⟨rfl, h.2.2.2.2.1, h.2.2.2.2.2.1⟩

/-! ## Payment pipeline: the successful run -/

/-- C2: when the request decodes, `TokenizeCCNumber` returns the token `tok`
without error and `SaveOrder` returns the identifier `id` without error,
`Payment.ServeHTTP` hands to `SaveOrder` an `Order` whose `CardNumber` is
exactly `tok` (and that is the only `Order` it hands over), and the response
is status 200 with the body `PaymentResponse` of `id`. -/
theorem payment_success_stores_token_and_returns_id (w : World) (p : handlers.Payment)
    (r : handlers.Request) (pr : handlers.PaymentRequest) (tok : String) (id : Int)
    (hparse : w.jsonDecodePaymentRequest r.Body = .ok pr)
    (htok : (p.vc.TokenizeCCNumber w pr.CardNumber).result = .ret (tok, none))
    (hsave : (p.pc.SaveOrder w { CardNumber := tok }).result = .ret (id, none)) :
    calls (handlers.Payment.ServeHTTP w p r).trace =
      [.TokenizeCCNumber pr.CardNumber, .SaveOrder { CardNumber := tok }] ∧
    (∀ o, Event.SaveOrder o ∈ (handlers.Payment.ServeHTTP w p r).trace →
      o.CardNumber = tok) ∧
    response (handlers.Payment.ServeHTTP w p r).trace =
      ⟨some 200, [.PaymentResponse ⟨id⟩]⟩ ∧
    (handlers.Payment.ServeHTTP w p r).result = .ret () := by
  have hcalls : calls (handlers.Payment.ServeHTTP w p r).trace =
      [.TokenizeCCNumber pr.CardNumber, .SaveOrder { CardNumber := tok }] := by
    rw [ServeHTTP_success w p r pr tok id hparse htok hsave]
    dsimp only
    rw [calls_append, calls_append, calls_TokenizeCCNumber, calls_SaveOrder]
    rfl
  refine ⟨hcalls, ?_, ?_, ?_⟩
  · intro o ho
    have hmem : Event.SaveOrder o ∈ calls (handlers.Payment.ServeHTTP w p r).trace :=
      List.mem_filter.mpr ⟨ho, rfl⟩
    rw [hcalls] at hmem
    simp only [List.mem_cons, Event.SaveOrder.injEq, List.mem_singleton, reduceCtorEq,
      false_or, List.not_mem_nil, or_false] at hmem
    rw [hmem]
  · rw [ServeHTTP_success w p r pr tok id hparse htok hsave]
    dsimp only
    rw [response_append, response_append]
    unfold response
    rw [foldl_step_TokenizeCCNumber, foldl_step_SaveOrder]
    rfl
  · rw [ServeHTTP_success w p r pr tok id hparse htok hsave]

/-- Witness of C2, the scenario of the specification: the tokenizer returns
`tok_abcd1234`, the store assigns 42, the response is 200 with transaction
identifier 42 and the stored token is `tok_abcd1234`. -/
theorem payment_success_stores_token_and_returns_id_witness :
    (Scenario.world Scenario.vaultUp).jsonDecodePaymentRequest Scenario.visaBody
      = .ok ⟨"4024-2322-1235-9245", "09/28", "123"⟩ ∧
    (Scenario.client.TokenizeCCNumber (Scenario.world Scenario.vaultUp)
        "4024-2322-1235-9245").result = .ret ("tok_abcd1234", none) ∧
    (Scenario.dbUp.SaveOrder (Scenario.world Scenario.vaultUp)
        { CardNumber := "tok_abcd1234" }).result = .ret (42, none) ∧
    calls (handlers.Payment.ServeHTTP (Scenario.world Scenario.vaultUp)
      ⟨Scenario.dbUp, Scenario.client⟩ ⟨Scenario.visaBody⟩).trace =
      [.TokenizeCCNumber "4024-2322-1235-9245",
       .SaveOrder { CardNumber := "tok_abcd1234" }] ∧
    response (handlers.Payment.ServeHTTP (Scenario.world Scenario.vaultUp)
      ⟨Scenario.dbUp, Scenario.client⟩ ⟨Scenario.visaBody⟩).trace =
      ⟨some 200, [.PaymentResponse ⟨42⟩]⟩ :=
  have h := payment_success_stores_token_and_returns_id (Scenario.world Scenario.vaultUp)
    ⟨Scenario.dbUp, Scenario.client⟩ ⟨Scenario.visaBody⟩
    ⟨"4024-2322-1235-9245", "09/28", "123"⟩ "tok_abcd1234" 42 rfl rfl rfl
  ⟨rfl, rfl, rfl, h.1, h.2.2.1⟩

/-- C3, counterexample: Vault answers with an encoded value equal to the value
it was sent. The request decodes, tokenization and persistence succeed, and
the `Order` handed to `SaveOrder` carries the raw card number of the request. -/
theorem stored_token_equals_card_number_when_vault_echoes :
    (Scenario.world Scenario.vaultEcho).jsonDecodePaymentRequest Scenario.visaBody
      = .ok ⟨"4024-2322-1235-9245", "09/28", "123"⟩ ∧
    (Scenario.client.TokenizeCCNumber (Scenario.world Scenario.vaultEcho)
        "4024-2322-1235-9245").result = .ret ("4024-2322-1235-9245", none) ∧
    (Scenario.dbUp.SaveOrder (Scenario.world Scenario.vaultEcho)
        { CardNumber := "4024-2322-1235-9245" }).result = .ret (42, none) ∧
    response (handlers.Payment.ServeHTTP (Scenario.world Scenario.vaultEcho)
      ⟨Scenario.dbUp, Scenario.client⟩ ⟨Scenario.visaBody⟩).trace =
      ⟨some 200, [.PaymentResponse ⟨42⟩]⟩ ∧
    Event.SaveOrder { CardNumber := "4024-2322-1235-9245" } ∈
      (handlers.Payment.ServeHTTP (Scenario.world Scenario.vaultEcho)
        ⟨Scenario.dbUp, Scenario.client⟩ ⟨Scenario.visaBody⟩).trace ∧
    ¬ (∀ o, Event.SaveOrder o ∈
        (handlers.Payment.ServeHTTP (Scenario.world Scenario.vaultEcho)
          ⟨Scenario.dbUp, Scenario.client⟩ ⟨Scenario.visaBody⟩).trace →
        o.CardNumber ≠ "4024-2322-1235-9245") := by
  have hmem : Event.SaveOrder { CardNumber := "4024-2322-1235-9245" } ∈
      (handlers.Payment.ServeHTTP (Scenario.world Scenario.vaultEcho)
        ⟨Scenario.dbUp, Scenario.client⟩ ⟨Scenario.visaBody⟩).trace := by decide
  exact ⟨rfl, rfl, rfl, rfl, hmem, fun h => h _ hmem rfl⟩

/-- C3, amended: when the request decodes and tokenization and persistence
succeed, the `Order` handed to `SaveOrder` carries exactly the tokenizer's
output, which is the encoded value that the body of Vault's status-200 answer
decodes to; it equals the raw card number of the request exactly when that
encoded value does (the handler compares nothing itself). -/
theorem stored_token_is_tokenizer_output (w : World) (p : handlers.Payment)
    (r : handlers.Request) (pr : handlers.PaymentRequest) (tok : String) (id : Int)
    (hparse : w.jsonDecodePaymentRequest r.Body = .ok pr)
    (htok : (p.vc.TokenizeCCNumber w pr.CardNumber).result = .ret (tok, none))
    (hsave : (p.pc.SaveOrder w { CardNumber := tok }).result = .ret (id, none)) :
    saveOrderCalls (handlers.Payment.ServeHTTP w p r).trace = 1 ∧
    (∀ o, Event.SaveOrder o ∈ (handlers.Payment.ServeHTTP w p r).trace →
      o.CardNumber = tok ∧ (o.CardNumber = pr.CardNumber ↔ tok = pr.CardNumber)) ∧
    (∃ req resp tr, p.vc.tokenizeRequest w pr.CardNumber = some req ∧
      w.Do req = .ok resp ∧ resp.StatusCode = 200 ∧
      w.jsonDecodeTokenResponse resp.Body = .ok tr ∧ tok = tr.Data.EncodedValue) := by
  have heq := ServeHTTP_success w p r pr tok id hparse htok hsave
  refine ⟨?_, ?_, TokenizeCCNumber_ok w p.vc pr.CardNumber tok htok⟩
  · rw [heq]
    dsimp only
    rw [saveOrderCalls_append, saveOrderCalls_append, saveOrderCalls_TokenizeCCNumber,
      saveOrderCalls_SaveOrder]
    rfl
  · intro o ho
    have hmem : Event.SaveOrder o ∈ calls (handlers.Payment.ServeHTTP w p r).trace :=
      List.mem_filter.mpr ⟨ho, rfl⟩
    rw [heq] at hmem
    dsimp only at hmem
    rw [calls_append, calls_append, calls_TokenizeCCNumber, calls_SaveOrder] at hmem
    have hcalls : calls [Event.Encode (.PaymentResponse ⟨id⟩)] = [] := rfl
    rw [hcalls] at hmem
    simp only [List.append_nil, List.singleton_append, List.mem_cons, Event.SaveOrder.injEq,
      List.mem_singleton, reduceCtorEq, false_or, List.not_mem_nil, or_false] at hmem
    rw [hmem]
    exact ⟨rfl, Iff.rfl⟩

/-- Witness of C3 as amended: Vault returns `tok_abcd1234` for the scenario's
card number. -/
theorem stored_token_is_tokenizer_output_witness :
    (Scenario.world Scenario.vaultUp).jsonDecodePaymentRequest Scenario.visaBody
      = .ok ⟨"4024-2322-1235-9245", "09/28", "123"⟩ ∧
    saveOrderCalls (handlers.Payment.ServeHTTP (Scenario.world Scenario.vaultUp)
      ⟨Scenario.dbUp, Scenario.client⟩ ⟨Scenario.visaBody⟩).trace = 1 ∧
    (∀ o, Event.SaveOrder o ∈ (handlers.Payment.ServeHTTP (Scenario.world Scenario.vaultUp)
        ⟨Scenario.dbUp, Scenario.client⟩ ⟨Scenario.visaBody⟩).trace →
      o.CardNumber = "tok_abcd1234" ∧
      (o.CardNumber = "4024-2322-1235-9245" ↔ "tok_abcd1234" = "4024-2322-1235-9245")) :=
  have h := stored_token_is_tokenizer_output (Scenario.world Scenario.vaultUp)
    ⟨Scenario.dbUp, Scenario.client⟩ ⟨Scenario.visaBody⟩
    ⟨"4024-2322-1235-9245", "09/28", "123"⟩ "tok_abcd1234" 42 rfl rfl rfl
  ⟨rfl, h.1, h.2.1⟩

/-! ## Health aggregation -/

/-- C5: take two runs of `Health.ServeHTTP`, with store probe `s` and
tokenizer probe `t` in the first and `s2`, `t2` in the second. The first
answers 200 exactly when both probes are true and 500 otherwise; its `db`
field is `OK` exactly when the store probe is true and `Fail` otherwise, its
`vault` field is `OK` exactly when the tokenizer probe is true and `Fail`
otherwise. Across the two runs the `db` fields agree exactly when the store
probes agree and the `vault` fields agree exactly when the tokenizer probes
agree, so flipping one probe changes exactly one field. -/
theorem health_ok_iff_both_probes (w w2 : World) (h h2 : handlers.Health)
    (r r2 : handlers.Request) (s t s2 t2 : Bool) (e e2 : Option GoError)
    (hs : h.pc.IsConnected.result = .ret (s, e))
    (ht : (h.vc.IsOK w).result = .ret t)
    (hs2 : h2.pc.IsConnected.result = .ret (s2, e2))
    (ht2 : (h2.vc.IsOK w2).result = .ret t2) :
    ((response (handlers.Health.ServeHTTP w h r).trace).status = some 200 ↔
      (s = true ∧ t = true)) ∧
    ((response (handlers.Health.ServeHTTP w h r).trace).status = some 500 ↔
      ¬ (s = true ∧ t = true)) ∧
    (∃ hr hr2,
      (response (handlers.Health.ServeHTTP w h r).trace).body = [.HealthResponse hr] ∧
      (response (handlers.Health.ServeHTTP w2 h2 r2).trace).body = [.HealthResponse hr2] ∧
      (hr.DB = "OK" ↔ s = true) ∧ (hr.DB = "Fail" ↔ s = false) ∧
      (hr.Vault = "OK" ↔ t = true) ∧ (hr.Vault = "Fail" ↔ t = false) ∧
      (hr.DB = hr2.DB ↔ s = s2) ∧ (hr.Vault = hr2.Vault ↔ t = t2)) ∧
    (handlers.Health.ServeHTTP w h r).result = .ret () := by
  rw [Health_response w h r s t e hs ht, Health_response w2 h2 r2 s2 t2 e2 hs2 ht2,
    Health_ServeHTTP_eq w h r s t e hs ht]
  refine ⟨?_, ?_, ⟨_, _, rfl, rfl, ?_⟩, rfl⟩
  · cases s <;> cases t <;> decide
  · cases s <;> cases t <;> decide
  · cases s <;> cases t <;> cases s2 <;> cases t2 <;> decide

/-- Witness of C5, the scenario of the specification: the store probe fails
and the tokenizer probe succeeds (first run), compared with a run where both
succeed; the first run answers 500 with `vault` `OK` and `db` `Fail`. -/
theorem health_ok_iff_both_probes_witness :
    response (handlers.Health.ServeHTTP (Scenario.world Scenario.vaultUp)
      ⟨Scenario.dbDown, Scenario.client⟩ ⟨""⟩).trace =
      ⟨some 500, [.HealthResponse ⟨"OK", "Fail"⟩]⟩ ∧
    response (handlers.Health.ServeHTTP (Scenario.world Scenario.vaultUp)
      ⟨Scenario.dbUp, Scenario.client⟩ ⟨""⟩).trace =
      ⟨some 200, [.HealthResponse ⟨"OK", "OK"⟩]⟩ ∧
    ((response (handlers.Health.ServeHTTP (Scenario.world Scenario.vaultUp)
      ⟨Scenario.dbDown, Scenario.client⟩ ⟨""⟩).trace).status = some 500 ↔
      ¬ (false = true ∧ true = true)) :=
  have h := health_ok_iff_both_probes (Scenario.world Scenario.vaultUp)
    (Scenario.world Scenario.vaultUp) ⟨Scenario.dbDown, Scenario.client⟩
    ⟨Scenario.dbUp, Scenario.client⟩ ⟨""⟩ ⟨""⟩ false true true true
    (some "dial tcp 127.0.0.1:5432: connect: connection refused") none rfl rfl rfl rfl
  ⟨rfl, rfl, h.2.1⟩

/-! ## The Vault client -/

/-- C6, counterexample: a status-200 answer whose body is cut off (it carries
no status text at all) makes `IsOK` return true; and whatever set of bodies is
called malformed, as soon as it has one member, "a malformed body yields
false" fails, because `IsOK` never reads the body. -/
theorem IsOK_true_on_malformed_body :
    (Scenario.world Scenario.vaultTruncated).Do
      ⟨"GET", "http://localhost:8200/v1/sys/health", [("X-Vault-Token", "root")], none⟩
      = .ok ⟨200, Scenario.truncatedBody⟩ ∧
    Scenario.client.IsOK (Scenario.world Scenario.vaultTruncated) =
      ⟨[.IsOK,
        .Do ⟨"GET", "http://localhost:8200/v1/sys/health", [("X-Vault-Token", "root")], none⟩,
        .BodyClose], .ret true⟩ ∧
    ¬ ∃ malformed : String → Bool, (∃ b, malformed b = true) ∧
      ∀ (w : World) (c : vault.Client) (req : http.Request) (resp : http.Response),
        c.healthRequest w = some req → w.Do req = .ok resp →
        malformed resp.Body = true → (c.IsOK w).result = .ret false := by
  refine ⟨rfl, rfl, ?_⟩
  rintro ⟨malformed, ⟨b, hb⟩, hall⟩
  have h := hall (Scenario.world (fun _ => .ok ⟨200, b⟩)) Scenario.client _ ⟨200, b⟩ rfl rfl hb
  have h2 : (Scenario.client.IsOK (Scenario.world (fun _ => .ok ⟨200, b⟩))).result
      = .ret true := rfl
  rw [h2] at h
  simp at h

/-- C6, amended: once the liveness request is built, `IsOK` returns true
exactly when `http.DefaultClient.Do` returns a response (no transport error)
whose HTTP status is 200, whatever its body; it returns false for every
transport error and for every status other than 200. -/
theorem IsOK_true_iff_status_200 (w : World) (c : vault.Client) (req : http.Request)
    (hreq : c.healthRequest w = some req) :
    ((c.IsOK w).result = .ret true ↔ ∃ resp, w.Do req = .ok resp ∧ resp.StatusCode = 200) ∧
    (∀ e, w.Do req = .error e → (c.IsOK w).result = .ret false) ∧
    (∀ resp, w.Do req = .ok resp → resp.StatusCode ≠ 200 → (c.IsOK w).result = .ret false) ∧
    (∀ resp, w.Do req = .ok resp → resp.StatusCode = 200 → (c.IsOK w).result = .ret true) ∧
    httpCalls (c.IsOK w).trace = 1 := by
  unfold vault.Client.healthRequest at hreq
  unfold vault.Client.IsOK
  dsimp only at hreq ⊢
  cases hnr : http.NewRequest w http.MethodGet (c.uri ++ "/v1/sys/health") none with
  | none => rw [hnr] at hreq; simp at hreq
  | some r0 =>
    rw [hnr] at hreq
    simp only [Option.map_some', Option.some.injEq] at hreq
    subst hreq
    dsimp only
    cases hdo : w.Do (r0.HeaderAdd "X-Vault-Token" c.token) with
    | error e => simp [httpCalls]
    | ok resp =>
      by_cases hst : resp.StatusCode = 200
      · simp [hst, http.StatusOK, httpCalls]
      · simp [hst, http.StatusOK, httpCalls]

/-- Witness of C6 as amended: Vault is sealed and answers 503. -/
theorem IsOK_true_iff_status_200_witness :
    Scenario.client.healthRequest (Scenario.world Scenario.vaultSealed) =
      some ⟨"GET", "http://localhost:8200/v1/sys/health", [("X-Vault-Token", "root")], none⟩ ∧
    (Scenario.client.IsOK (Scenario.world Scenario.vaultSealed)).result = .ret false :=
  have h := IsOK_true_iff_status_200 (Scenario.world Scenario.vaultSealed) Scenario.client
    ⟨"GET", "http://localhost:8200/v1/sys/health", [("X-Vault-Token", "root")], none⟩ rfl
  ⟨rfl, h.2.2.1 ⟨503, ""⟩ rfl (by decide)⟩

/-- C7, counterexample: Vault answers the tokenization request with status 200
and the body `{}`. The body is valid JSON but has neither `data` nor
`encoded_value` (the key does not even occur in it); `encoding/json` decodes it
to the zero `TokenResponse` and returns no error, so `TokenizeCCNumber` returns
the empty token with a nil error. `Payment.ServeHTTP` then hands
`Order{CardNumber: ""}` to `SaveOrder` and answers 200. -/
theorem TokenizeCCNumber_no_error_on_empty_object :
    Scenario.emptyObjectBody = "\x7b\x7d" ∧
    ¬ containsText Scenario.emptyObjectBody "encoded_value" ∧
    (Scenario.world Scenario.vaultEmptyObject).Do
      ⟨"POST", "http://localhost:8200/v1/transform/encode/payments",
        [("X-Vault-Token", "root")], some "\x7b\"value\":\"4024-2322-1235-9245\"\x7d"⟩
      = .ok ⟨200, Scenario.emptyObjectBody⟩ ∧
    (Scenario.world Scenario.vaultEmptyObject).jsonDecodeTokenResponse
      Scenario.emptyObjectBody = .ok ⟨⟨""⟩⟩ ∧
    Scenario.client.TokenizeCCNumber (Scenario.world Scenario.vaultEmptyObject)
      "4024-2322-1235-9245" =
      ⟨[.TokenizeCCNumber "4024-2322-1235-9245",
        .Do ⟨"POST", "http://localhost:8200/v1/transform/encode/payments",
          [("X-Vault-Token", "root")], some "\x7b\"value\":\"4024-2322-1235-9245\"\x7d"⟩,
        .BodyClose], .ret ("", none)⟩ ∧
    ¬ (∃ e, (Scenario.client.TokenizeCCNumber (Scenario.world Scenario.vaultEmptyObject)
      "4024-2322-1235-9245").result = .ret ("", some e)) ∧
    calls (handlers.Payment.ServeHTTP (Scenario.world Scenario.vaultEmptyObject)
      ⟨Scenario.dbUp, Scenario.client⟩ ⟨Scenario.visaBody⟩).trace =
      [.TokenizeCCNumber "4024-2322-1235-9245", .SaveOrder { CardNumber := "" }] ∧
    response (handlers.Payment.ServeHTTP (Scenario.world Scenario.vaultEmptyObject)
      ⟨Scenario.dbUp, Scenario.client⟩ ⟨Scenario.visaBody⟩).trace =
      ⟨some 200, [.PaymentResponse ⟨42⟩]⟩ := by
  refine ⟨rfl, by decide, rfl, rfl, rfl, ?_, rfl, rfl⟩
  rintro ⟨e, he⟩
  have h2 : (Scenario.client.TokenizeCCNumber (Scenario.world Scenario.vaultEmptyObject)
      "4024-2322-1235-9245").result = .ret ("", none) := rfl
  rw [h2] at he
  simp at he

/-- C7, amended: once the tokenization request is built, `TokenizeCCNumber`
returns the empty token together with an error when `http.DefaultClient.Do`
fails (the transport error), when the status of the response is not 200 (an
error naming the status), and when `json` `Decode` of the body into a
`TokenResponse` returns an error (that error); otherwise it returns the decoded
`Data.EncodedValue` and no error, whatever fields the body had. In every case
it returns, and sends exactly one HTTP request. -/
theorem TokenizeCCNumber_error_or_encoded_value (w : World) (c : vault.Client)
    (cc : String) (req : http.Request)
    (hreq : c.tokenizeRequest w cc = some req) :
    (∀ e, w.Do req = .error e → (c.TokenizeCCNumber w cc).result = .ret ("", some e)) ∧
    (∀ resp, w.Do req = .ok resp → resp.StatusCode ≠ 200 →
      (c.TokenizeCCNumber w cc).result =
        .ret ("", some (vault.statusError resp.StatusCode))) ∧
    (∀ resp e, w.Do req = .ok resp → resp.StatusCode = 200 →
      w.jsonDecodeTokenResponse resp.Body = .error e →
      (c.TokenizeCCNumber w cc).result = .ret ("", some e)) ∧
    (∀ resp tr, w.Do req = .ok resp → resp.StatusCode = 200 →
      w.jsonDecodeTokenResponse resp.Body = .ok tr →
      (c.TokenizeCCNumber w cc).result = .ret (tr.Data.EncodedValue, none)) ∧
    (∃ tok err, (c.TokenizeCCNumber w cc).result = .ret (tok, err) ∧
      (err ≠ none → tok = "")) ∧
    httpCalls (c.TokenizeCCNumber w cc).trace = 1 := by
  refine ⟨fun e hdo => by rw [TokenizeCCNumber_transport_error w c cc req e hreq hdo],
    fun resp hdo hst => by rw [TokenizeCCNumber_status_error w c cc req resp hreq hdo hst],
    fun resp e hdo hst hdec => by
      rw [TokenizeCCNumber_decode_error w c cc req resp e hreq hdo hst hdec],
    fun resp tr hdo hst hdec => by
      rw [TokenizeCCNumber_decoded w c cc req resp tr hreq hdo hst hdec], ?_, ?_⟩
  · cases hdo : w.Do req with
    | error e =>
      rw [TokenizeCCNumber_transport_error w c cc req e hreq hdo]
      exact ⟨_, _, rfl, fun _ => rfl⟩
    | ok resp =>
      by_cases hst : resp.StatusCode = 200
      · cases hdec : w.jsonDecodeTokenResponse resp.Body with
        | error e =>
          rw [TokenizeCCNumber_decode_error w c cc req resp e hreq hdo hst hdec]
          exact ⟨_, _, rfl, fun _ => rfl⟩
        | ok tr =>
          rw [TokenizeCCNumber_decoded w c cc req resp tr hreq hdo hst hdec]
          exact ⟨_, _, rfl, fun hne => absurd rfl hne⟩
      · rw [TokenizeCCNumber_status_error w c cc req resp hreq hdo hst]
        exact ⟨_, _, rfl, fun _ => rfl⟩
  · cases hdo : w.Do req with
    | error e => rw [TokenizeCCNumber_transport_error w c cc req e hreq hdo]; rfl
    | ok resp =>
      by_cases hst : resp.StatusCode = 200
      · cases hdec : w.jsonDecodeTokenResponse resp.Body with
        | error e =>
          rw [TokenizeCCNumber_decode_error w c cc req resp e hreq hdo hst hdec]; rfl
        | ok tr =>
          rw [TokenizeCCNumber_decoded w c cc req resp tr hreq hdo hst hdec]; rfl
      · rw [TokenizeCCNumber_status_error w c cc req resp hreq hdo hst]; rfl

/-- Witness of C7 as amended: Vault is sealed and answers the tokenization
request with status 503. -/
theorem TokenizeCCNumber_error_or_encoded_value_witness :
    Scenario.client.tokenizeRequest (Scenario.world Scenario.vaultSealed)
      "4024-2322-1235-9245" =
      some ⟨"POST", "http://localhost:8200/v1/transform/encode/payments",
        [("X-Vault-Token", "root")], some "\x7b\"value\":\"4024-2322-1235-9245\"\x7d"⟩ ∧
    (Scenario.client.TokenizeCCNumber (Scenario.world Scenario.vaultSealed)
      "4024-2322-1235-9245").result =
      .ret ("", some "Vault returned reponse code 503, expected status code 200") :=
  have h := TokenizeCCNumber_error_or_encoded_value (Scenario.world Scenario.vaultSealed)
    Scenario.client "4024-2322-1235-9245"
    ⟨"POST", "http://localhost:8200/v1/transform/encode/payments",
      [("X-Vault-Token", "root")], some "\x7b\"value\":\"4024-2322-1235-9245\"\x7d"⟩ rfl
  ⟨rfl, h.2.1 ⟨503, ""⟩ rfl (by decide)⟩

/-! ## Payment pipeline: failure of the store, and the absence of retries -/

/-- C9: when the request decodes, tokenization succeeds with `tok` and
`SaveOrder` returns an error `e` (with identifier `id`), `Payment.ServeHTTP`
answers with status 500 and a single `PaymentError` body whose message
contains `e`, hence no `PaymentResponse` with a transaction identifier; the
tokenizer and the store were each called once and nothing is called after the
store (one database statement, at most one HTTP request). `SaveOrder` itself
returned `-1` as identifier, and `e` wraps the error of the database, whose
text the message contains as well. -/
theorem payment_save_error_discards_token (w : World) (p : handlers.Payment)
    (r : handlers.Request) (pr : handlers.PaymentRequest) (tok : String) (id : Int)
    (e : GoError)
    (hparse : w.jsonDecodePaymentRequest r.Body = .ok pr)
    (htok : (p.vc.TokenizeCCNumber w pr.CardNumber).result = .ret (tok, none))
    (hsave : (p.pc.SaveOrder w { CardNumber := tok }).result = .ret (id, some e)) :
    (response (handlers.Payment.ServeHTTP w p r).trace).status = some 500 ∧
    (∃ msg, (response (handlers.Payment.ServeHTTP w p r).trace).body = [.PaymentError ⟨msg⟩] ∧
      msg = "Uable to save data to db: " ++ e ∧ containsText msg e ∧
      ∃ dbErr, p.pc.db.QueryRowScan data.insertOrderSQL [tok, w.Now 0, w.Now 1]
          = .error dbErr ∧
        e = "Unable to insert record into DB. Error: " ++ dbErr ∧ containsText msg dbErr) ∧
    calls (handlers.Payment.ServeHTTP w p r).trace =
      [.TokenizeCCNumber pr.CardNumber, .SaveOrder { CardNumber := tok }] ∧
    tokenizeCalls (handlers.Payment.ServeHTTP w p r).trace = 1 ∧
    saveOrderCalls (handlers.Payment.ServeHTTP w p r).trace = 1 ∧
    queries (handlers.Payment.ServeHTTP w p r).trace = 1 ∧
    httpCalls (handlers.Payment.ServeHTTP w p r).trace ≤ 1 ∧
    id = -1 ∧
    (handlers.Payment.ServeHTTP w p r).result = .ret () := by
  obtain ⟨hid, dbErr, hq, he, _⟩ := SaveOrder_error w p.pc { CardNumber := tok } id e hsave
  have hcalls : calls (handlers.Payment.ServeHTTP w p r).trace =
      [.TokenizeCCNumber pr.CardNumber, .SaveOrder { CardNumber := tok }] := by
    rw [ServeHTTP_save_error w p r pr tok id e hparse htok hsave]
    dsimp only
    rw [calls_append, calls_append, calls_TokenizeCCNumber, calls_SaveOrder]
    rfl
  have hresp : response (handlers.Payment.ServeHTTP w p r).trace =
      ⟨some 500, [.PaymentError ⟨"Uable to save data to db: " ++ e⟩]⟩ := by
    rw [ServeHTTP_save_error w p r pr tok id e hparse htok hsave]
    dsimp only
    rw [response_append, response_append]
    unfold response
    rw [foldl_step_TokenizeCCNumber, foldl_step_SaveOrder]
    rfl
  refine ⟨by rw [hresp], ⟨_, by rw [hresp], rfl, containsText_append_right _ _, dbErr, hq, he,
    ?_⟩, hcalls, ?_, ?_, ?_, ?_, hid, ?_⟩
  · rw [he, ← String.append_assoc]
    exact containsText_append_right _ _
  · rw [← tokenizeCalls_calls, hcalls]; rfl
  · rw [← saveOrderCalls_calls, hcalls]; rfl
  · rw [ServeHTTP_save_error w p r pr tok id e hparse htok hsave]
    dsimp only
    rw [queries_append, queries_append, queries_TokenizeCCNumber, queries_SaveOrder]
    rfl
  · rw [ServeHTTP_save_error w p r pr tok id e hparse htok hsave]
    dsimp only
    rw [httpCalls_append, httpCalls_append, httpCalls_SaveOrder]
    exact httpCalls_TokenizeCCNumber w p.vc pr.CardNumber
  · rw [ServeHTTP_save_error w p r pr tok id e hparse htok hsave]

/-- Witness of C9: Vault returns a token and the database cannot be reached. -/
theorem payment_save_error_discards_token_witness :
    (Scenario.dbDown.SaveOrder (Scenario.world Scenario.vaultUp)
        { CardNumber := "tok_abcd1234" }).result =
      .ret (-1, some ("Unable to insert record into DB. Error: " ++
        "dial tcp 127.0.0.1:5432: connect: connection refused")) ∧
    (response (handlers.Payment.ServeHTTP (Scenario.world Scenario.vaultUp)
      ⟨Scenario.dbDown, Scenario.client⟩ ⟨Scenario.visaBody⟩).trace).status = some 500 ∧
    calls (handlers.Payment.ServeHTTP (Scenario.world Scenario.vaultUp)
      ⟨Scenario.dbDown, Scenario.client⟩ ⟨Scenario.visaBody⟩).trace =
      [.TokenizeCCNumber "4024-2322-1235-9245",
       .SaveOrder { CardNumber := "tok_abcd1234" }] :=
  have h := payment_save_error_discards_token (Scenario.world Scenario.vaultUp)
    ⟨Scenario.dbDown, Scenario.client⟩ ⟨Scenario.visaBody⟩
    ⟨"4024-2322-1235-9245", "09/28", "123"⟩ "tok_abcd1234" (-1)
    ("Unable to insert record into DB. Error: " ++
      "dial tcp 127.0.0.1:5432: connect: connection refused") rfl rfl rfl
  ⟨rfl, h.1, h.2.2.1⟩

/-- C10: in every run of `Payment.ServeHTTP` the tokenizer is called at most
once and the store at most once, and the calls of the run are none, the
tokenizer alone, or the tokenizer followed by the store. The tokenizer is
called exactly once whenever the body decodes, and the store exactly once
whenever the tokenizer then returns a token. Two successful runs on the same
request (worlds `w` and `w2`) make two `SaveOrder` calls and send two insert
statements: nothing is deduplicated. -/
theorem payment_each_dependency_called_once (w w2 : World) (p : handlers.Payment)
    (r : handlers.Request) :
    tokenizeCalls (handlers.Payment.ServeHTTP w p r).trace ≤ 1 ∧
    saveOrderCalls (handlers.Payment.ServeHTTP w p r).trace ≤ 1 ∧
    (calls (handlers.Payment.ServeHTTP w p r).trace = [] ∨
      (∃ cc, calls (handlers.Payment.ServeHTTP w p r).trace = [.TokenizeCCNumber cc]) ∨
      (∃ cc o, calls (handlers.Payment.ServeHTTP w p r).trace =
        [.TokenizeCCNumber cc, .SaveOrder o])) ∧
    (∀ pr, w.jsonDecodePaymentRequest r.Body = .ok pr →
      tokenizeCalls (handlers.Payment.ServeHTTP w p r).trace = 1 ∧
      (calls (handlers.Payment.ServeHTTP w p r).trace).head? =
        some (.TokenizeCCNumber pr.CardNumber)) ∧
    (∀ pr tok, w.jsonDecodePaymentRequest r.Body = .ok pr →
      (p.vc.TokenizeCCNumber w pr.CardNumber).result = .ret (tok, none) →
      saveOrderCalls (handlers.Payment.ServeHTTP w p r).trace = 1 ∧
      queries (handlers.Payment.ServeHTTP w p r).trace = 1 ∧
      calls (handlers.Payment.ServeHTTP w p r).trace =
        [.TokenizeCCNumber pr.CardNumber, .SaveOrder { CardNumber := tok }]) ∧
    (∀ pr tok id pr2 tok2 id2,
      w.jsonDecodePaymentRequest r.Body = .ok pr →
      (p.vc.TokenizeCCNumber w pr.CardNumber).result = .ret (tok, none) →
      (p.pc.SaveOrder w { CardNumber := tok }).result = .ret (id, none) →
      w2.jsonDecodePaymentRequest r.Body = .ok pr2 →
      (p.vc.TokenizeCCNumber w2 pr2.CardNumber).result = .ret (tok2, none) →
      (p.pc.SaveOrder w2 { CardNumber := tok2 }).result = .ret (id2, none) →
      saveOrderCalls ((handlers.Payment.ServeHTTP w p r).trace ++
        (handlers.Payment.ServeHTTP w2 p r).trace) = 2 ∧
      queries ((handlers.Payment.ServeHTTP w p r).trace ++
        (handlers.Payment.ServeHTTP w2 p r).trace) = 2 ∧
      calls ((handlers.Payment.ServeHTTP w p r).trace ++
        (handlers.Payment.ServeHTTP w2 p r).trace) =
        [.TokenizeCCNumber pr.CardNumber, .SaveOrder { CardNumber := tok },
         .TokenizeCCNumber pr2.CardNumber, .SaveOrder { CardNumber := tok2 }]) := by
  have hsucc : ∀ (w : World) pr tok, w.jsonDecodePaymentRequest r.Body = .ok pr →
      (p.vc.TokenizeCCNumber w pr.CardNumber).result = .ret (tok, none) →
      saveOrderCalls (handlers.Payment.ServeHTTP w p r).trace = 1 ∧
      queries (handlers.Payment.ServeHTTP w p r).trace = 1 ∧
      calls (handlers.Payment.ServeHTTP w p r).trace =
        [.TokenizeCCNumber pr.CardNumber, .SaveOrder { CardNumber := tok }] := by
    intro w pr tok hparse htok
    have hcalls : calls (handlers.Payment.ServeHTTP w p r).trace =
        [.TokenizeCCNumber pr.CardNumber, .SaveOrder { CardNumber := tok }] := by
      rcases calls_ServeHTTP w p r with ⟨⟨e, he⟩, _⟩ | ⟨pr0, hp0, hne, _⟩ | ⟨pr0, tok0, hp0, ht0, hc⟩
      · rw [hparse] at he; simp at he
      · rw [hparse] at hp0
        simp only [Except.ok.injEq] at hp0
        subst hp0
        exact absurd htok (hne tok)
      · rw [hparse] at hp0
        simp only [Except.ok.injEq] at hp0
        subst hp0
        rw [htok] at ht0
        simp only [Outcome.ret.injEq, Prod.mk.injEq, and_true] at ht0
        subst ht0
        exact hc
    refine ⟨by rw [← saveOrderCalls_calls, hcalls]; rfl, ?_, hcalls⟩
    cases hsave : (p.pc.SaveOrder w { CardNumber := tok }).result with
    | panic => exact absurd hsave (SaveOrder_result_ne_panic w p.pc _)
    | ret v =>
      obtain ⟨id, err⟩ := v
      cases err with
      | some e =>
        rw [ServeHTTP_save_error w p r pr tok id e hparse htok hsave]
        dsimp only
        rw [queries_append, queries_append, queries_TokenizeCCNumber, queries_SaveOrder]
        rfl
      | none =>
        rw [ServeHTTP_success w p r pr tok id hparse htok hsave]
        dsimp only
        rw [queries_append, queries_append, queries_TokenizeCCNumber, queries_SaveOrder]
        rfl
  refine ⟨?_, ?_, ?_, ?_, hsucc w, ?_⟩
  · rw [← tokenizeCalls_calls]
    rcases calls_ServeHTTP w p r with ⟨_, hc⟩ | ⟨_, _, _, hc⟩ | ⟨_, _, _, _, hc⟩ <;>
      rw [hc] <;> first | exact Nat.zero_le 1 | exact Nat.le_refl 1
  · rw [← saveOrderCalls_calls]
    rcases calls_ServeHTTP w p r with ⟨_, hc⟩ | ⟨_, _, _, hc⟩ | ⟨_, _, _, _, hc⟩ <;>
      rw [hc] <;> first | exact Nat.zero_le 1 | exact Nat.le_refl 1
  · rcases calls_ServeHTTP w p r with ⟨_, hc⟩ | ⟨pr, _, _, hc⟩ | ⟨pr, tok, _, _, hc⟩
    · exact Or.inl hc
    · exact Or.inr (Or.inl ⟨_, hc⟩)
    · exact Or.inr (Or.inr ⟨_, _, hc⟩)
  · intro pr hparse
    rw [← tokenizeCalls_calls]
    rcases calls_ServeHTTP w p r with ⟨⟨e, he⟩, _⟩ | ⟨pr0, hp0, _, hc⟩ | ⟨pr0, tok0, hp0, _, hc⟩
    · rw [hparse] at he; simp at he
    · rw [hparse] at hp0
      simp only [Except.ok.injEq] at hp0
      subst hp0
      rw [hc]
      exact ⟨rfl, rfl⟩
    · rw [hparse] at hp0
      simp only [Except.ok.injEq] at hp0
      subst hp0
      rw [hc]
      exact ⟨rfl, rfl⟩
  · intro pr tok id pr2 tok2 id2 hparse htok _ hparse2 htok2 _
    obtain ⟨hs1, hq1, hc1⟩ := hsucc w pr tok hparse htok
    obtain ⟨hs2, hq2, hc2⟩ := hsucc w2 pr2 tok2 hparse2 htok2
    refine ⟨?_, ?_, ?_⟩
    · rw [saveOrderCalls_append, hs1, hs2]
    · rw [queries_append, hq1, hq2]
    · rw [calls_append, hc1, hc2]
      rfl

/-- Witness of C10: the scenario's request is submitted twice while Vault and
the database are up; each run calls the tokenizer and then the store, and the
two runs together send two insert statements. -/
theorem payment_each_dependency_called_once_witness :
    calls (handlers.Payment.ServeHTTP (Scenario.world Scenario.vaultUp)
      ⟨Scenario.dbUp, Scenario.client⟩ ⟨Scenario.visaBody⟩).trace =
      [.TokenizeCCNumber "4024-2322-1235-9245",
       .SaveOrder { CardNumber := "tok_abcd1234" }] ∧
    queries ((handlers.Payment.ServeHTTP (Scenario.world Scenario.vaultUp)
        ⟨Scenario.dbUp, Scenario.client⟩ ⟨Scenario.visaBody⟩).trace ++
      (handlers.Payment.ServeHTTP (Scenario.world Scenario.vaultUp)
        ⟨Scenario.dbUp, Scenario.client⟩ ⟨Scenario.visaBody⟩).trace) = 2 :=
  have h := payment_each_dependency_called_once (Scenario.world Scenario.vaultUp)
    (Scenario.world Scenario.vaultUp) ⟨Scenario.dbUp, Scenario.client⟩ ⟨Scenario.visaBody⟩
  ⟨(h.2.2.2.2.1 ⟨"4024-2322-1235-9245", "09/28", "123"⟩ "tok_abcd1234" rfl rfl).2.2,
   (h.2.2.2.2.2 ⟨"4024-2322-1235-9245", "09/28", "123"⟩ "tok_abcd1234" 42
      ⟨"4024-2322-1235-9245", "09/28", "123"⟩ "tok_abcd1234" 42
      rfl rfl rfl rfl rfl rfl).2.1⟩

/-! ## The card number and what is logged -/

/-- C8: take two runs of `Payment.ServeHTTP` with the same Vault client, on
requests that decode to any two payment requests (so with any two card
numbers), in which the tokenization service gives the same outcome to the two
tokenization requests and, when a token is returned, the database gives the
same outcome to the two inserts of that token. Then `TokenizeCCNumber` returns
the same token and the same error in both, and the two runs write the same log
entries and printed lines, leave the same response (status and message), and
finish the same way; in particular on the tokenization-failure and
persistence-failure paths. -/
theorem card_number_absent_from_errors_and_logs (w1 w2 : World) (vc : vault.Client)
    (pc1 pc2 : data.PostgreSQL) (r1 r2 : handlers.Request)
    (pr1 pr2 : handlers.PaymentRequest)
    (hparse1 : w1.jsonDecodePaymentRequest r1.Body = .ok pr1)
    (hparse2 : w2.jsonDecodePaymentRequest r2.Body = .ok pr2)
    (hurl : w1.urlParses = w2.urlParses)
    (hjson : w1.jsonDecodeTokenResponse = w2.jsonDecodeTokenResponse)
    (hDo : ∀ req1 req2, vc.tokenizeRequest w1 pr1.CardNumber = some req1 →
      vc.tokenizeRequest w2 pr2.CardNumber = some req2 → w1.Do req1 = w2.Do req2)
    (hdb : ∀ tok, (vc.TokenizeCCNumber w1 pr1.CardNumber).result = .ret (tok, none) →
      pc1.db.QueryRowScan data.insertOrderSQL [tok, w1.Now 0, w1.Now 1] =
      pc2.db.QueryRowScan data.insertOrderSQL [tok, w2.Now 0, w2.Now 1]) :
    (vc.TokenizeCCNumber w1 pr1.CardNumber).result =
      (vc.TokenizeCCNumber w2 pr2.CardNumber).result ∧
    logs (handlers.Payment.ServeHTTP w1 ⟨pc1, vc⟩ r1).trace =
      logs (handlers.Payment.ServeHTTP w2 ⟨pc2, vc⟩ r2).trace ∧
    response (handlers.Payment.ServeHTTP w1 ⟨pc1, vc⟩ r1).trace =
      response (handlers.Payment.ServeHTTP w2 ⟨pc2, vc⟩ r2).trace ∧
    (handlers.Payment.ServeHTTP w1 ⟨pc1, vc⟩ r1).result =
      (handlers.Payment.ServeHTTP w2 ⟨pc2, vc⟩ r2).result := by
  have htk := TokenizeCCNumber_result_congr w1 w2 vc pr1.CardNumber pr2.CardNumber
    hurl hjson hDo
  refine ⟨htk, ?_⟩
  cases htok2 : (vc.TokenizeCCNumber w2 pr2.CardNumber).result with
  | panic =>
    have htok1 := htk.trans htok2
    rw [ServeHTTP_tokenize_panic w1 ⟨pc1, vc⟩ r1 pr1 hparse1 htok1,
      ServeHTTP_tokenize_panic w2 ⟨pc2, vc⟩ r2 pr2 hparse2 htok2]
    dsimp only
    unfold response
    rw [logs_TokenizeCCNumber, logs_TokenizeCCNumber, foldl_step_TokenizeCCNumber,
      foldl_step_TokenizeCCNumber]
    exact ⟨rfl, rfl, rfl⟩
  | ret v =>
    obtain ⟨tok, err⟩ := v
    have htok1 := htk.trans htok2
    cases err with
    | some e =>
      rw [ServeHTTP_tokenize_error w1 ⟨pc1, vc⟩ r1 pr1 tok e hparse1 htok1,
        ServeHTTP_tokenize_error w2 ⟨pc2, vc⟩ r2 pr2 tok e hparse2 htok2]
      dsimp only
      rw [response_append, response_append, logs_append, logs_append]
      unfold response
      rw [logs_TokenizeCCNumber, logs_TokenizeCCNumber, foldl_step_TokenizeCCNumber,
        foldl_step_TokenizeCCNumber]
      exact ⟨rfl, rfl, rfl⟩
    | none =>
      obtain ⟨hsv, hlogs⟩ :=
        SaveOrder_congr w1 w2 pc1 pc2 { CardNumber := tok } (hdb tok htok1)
      cases hsave2 : (pc2.SaveOrder w2 { CardNumber := tok }).result with
      | panic => exact absurd hsave2 (SaveOrder_result_ne_panic w2 pc2 _)
      | ret v =>
        obtain ⟨id, err⟩ := v
        have hsave1 := hsv.trans hsave2
        cases err with
        | some e =>
          rw [ServeHTTP_save_error w1 ⟨pc1, vc⟩ r1 pr1 tok id e hparse1 htok1 hsave1,
            ServeHTTP_save_error w2 ⟨pc2, vc⟩ r2 pr2 tok id e hparse2 htok2 hsave2]
          dsimp only
          rw [response_append, response_append, response_append, response_append,
            logs_append, logs_append, logs_append, logs_append]
          unfold response
          rw [logs_TokenizeCCNumber, logs_TokenizeCCNumber, foldl_step_TokenizeCCNumber,
            foldl_step_TokenizeCCNumber, foldl_step_SaveOrder, foldl_step_SaveOrder, hlogs]
          exact ⟨rfl, rfl, rfl⟩
        | none =>
          rw [ServeHTTP_success w1 ⟨pc1, vc⟩ r1 pr1 tok id hparse1 htok1 hsave1,
            ServeHTTP_success w2 ⟨pc2, vc⟩ r2 pr2 tok id hparse2 htok2 hsave2]
          dsimp only
          rw [response_append, response_append, response_append, response_append,
            logs_append, logs_append, logs_append, logs_append]
          unfold response
          rw [logs_TokenizeCCNumber, logs_TokenizeCCNumber, foldl_step_TokenizeCCNumber,
            foldl_step_TokenizeCCNumber, foldl_step_SaveOrder, foldl_step_SaveOrder, hlogs]
          exact ⟨rfl, rfl, rfl⟩

/-- Witness of C8: the Visa and the MasterCard example numbers are submitted,
once while Vault cannot be reached (tokenization fails) and once while Vault
is up and the database is down (persistence fails); each time both runs log
and answer the same text, in which neither number occurs. -/
theorem card_number_absent_from_errors_and_logs_witness :
    (Scenario.world Scenario.vaultDown).jsonDecodePaymentRequest Scenario.visaBody
      = .ok ⟨"4024-2322-1235-9245", "09/28", "123"⟩ ∧
    (Scenario.world Scenario.vaultDown).jsonDecodePaymentRequest Scenario.masterCardBody
      = .ok ⟨"5355-6853-9451-3461", "09/28", "123"⟩ ∧
    logs (handlers.Payment.ServeHTTP (Scenario.world Scenario.vaultDown)
      ⟨Scenario.dbUp, Scenario.client⟩ ⟨Scenario.visaBody⟩).trace =
      [.LogError "Unable to tokenize record"
        [("error", "dial tcp 127.0.0.1:8200: connect: connection refused")]] ∧
    logs (handlers.Payment.ServeHTTP (Scenario.world Scenario.vaultDown)
      ⟨Scenario.dbUp, Scenario.client⟩ ⟨Scenario.visaBody⟩).trace =
    logs (handlers.Payment.ServeHTTP (Scenario.world Scenario.vaultDown)
      ⟨Scenario.dbUp, Scenario.client⟩ ⟨Scenario.masterCardBody⟩).trace ∧
    response (handlers.Payment.ServeHTTP (Scenario.world Scenario.vaultDown)
      ⟨Scenario.dbUp, Scenario.client⟩ ⟨Scenario.visaBody⟩).trace =
    response (handlers.Payment.ServeHTTP (Scenario.world Scenario.vaultDown)
      ⟨Scenario.dbUp, Scenario.client⟩ ⟨Scenario.masterCardBody⟩).trace ∧
    logs (handlers.Payment.ServeHTTP (Scenario.world Scenario.vaultUp)
      ⟨Scenario.dbDown, Scenario.client⟩ ⟨Scenario.visaBody⟩).trace =
      [.LogError "Unable to save record"
        [("error", "Unable to insert record into DB. Error: " ++
          "dial tcp 127.0.0.1:5432: connect: connection refused")]] ∧
    logs (handlers.Payment.ServeHTTP (Scenario.world Scenario.vaultUp)
      ⟨Scenario.dbDown, Scenario.client⟩ ⟨Scenario.visaBody⟩).trace =
    logs (handlers.Payment.ServeHTTP (Scenario.world Scenario.vaultUp)
      ⟨Scenario.dbDown, Scenario.client⟩ ⟨Scenario.masterCardBody⟩).trace ∧
    response (handlers.Payment.ServeHTTP (Scenario.world Scenario.vaultUp)
      ⟨Scenario.dbDown, Scenario.client⟩ ⟨Scenario.visaBody⟩).trace =
    response (handlers.Payment.ServeHTTP (Scenario.world Scenario.vaultUp)
      ⟨Scenario.dbDown, Scenario.client⟩ ⟨Scenario.masterCardBody⟩).trace :=
  have h := card_number_absent_from_errors_and_logs (Scenario.world Scenario.vaultDown)
    (Scenario.world Scenario.vaultDown) Scenario.client Scenario.dbUp Scenario.dbUp
    ⟨Scenario.visaBody⟩ ⟨Scenario.masterCardBody⟩
    ⟨"4024-2322-1235-9245", "09/28", "123"⟩ ⟨"5355-6853-9451-3461", "09/28", "123"⟩
    rfl rfl rfl rfl (fun _ _ _ _ => rfl) (fun _ _ => rfl)
  have h2 := card_number_absent_from_errors_and_logs (Scenario.world Scenario.vaultUp)
    (Scenario.world Scenario.vaultUp) Scenario.client Scenario.dbDown Scenario.dbDown
    ⟨Scenario.visaBody⟩ ⟨Scenario.masterCardBody⟩
    ⟨"4024-2322-1235-9245", "09/28", "123"⟩ ⟨"5355-6853-9451-3461", "09/28", "123"⟩
    rfl rfl rfl rfl (fun _ _ _ _ => rfl) (fun _ _ => rfl)
  ⟨rfl, rfl, rfl, h.2.1, h.2.2.1, rfl, h2.2.1, h2.2.2.1⟩

end DemoVault
